import Mathlib

/-!
# Verification of the Pillar Quest platformer (src/main.py)

Shallow embedding of the gameplay core of `src/main.py`:
geometry (`pygame.Rect` operations restricted to what the game uses),
the player physics / jump state machine (`Player.update`, `Player.collide`),
the enemy behaviour machine (`Enemy.update`), the level builder
(`build_level_from_template`, `LevelManager.load_level`) and the per-frame
lifecycle of `run_game` (event handling, damage resolution, checkpoints,
level-clear debounce, level transition).

Modelling conventions, checked against the source:
* `pygame.Rect` coordinates are integers; velocities are Python floats,
  modelled here as exact rational numbers.  So that every definition
  evaluates inside the kernel, rationals are represented by the
  executable fraction type `Q` (integer numerator, positive integer
  denominator, not normalized); `Q.val` maps it to Mathlib's rationals
  and the `Q.val_*` lemmas check that the arithmetic agrees.  Python's
  builtin `round` (round-half-to-even) is modelled by `pyround`.
* The float expressions `FPS * 1.2` and `int(FPS * 0.9)` evaluate exactly
  to `72.0` and `54` in IEEE doubles; they are embedded as the integers
  `72` and `54`.
* `pygame.Rect.colliderect` is false for rectangles that merely touch.
* `pygame.sprite.Group` preserves insertion order; groups are embedded as
  lists in insertion order, and `spritecollide` as a list filter.
* Particles (`Particle`) are omitted: the source only draws them, they
  never join a collision query and never influence gameplay state.
* Calls to `random.*` (enemy variant/speed/direction draws, shooter timer
  re-arm) and the trigonometric aiming of bullets
  (`atan2`/`cos`/`sin` of the cursor or player direction) are external
  inputs to a frame; they are threaded through as oracle parameters.
-/

/-- An executable rational: a fraction `num / den`.  Every value built by
the embedding has `0 < den`; fractions are not normalized, so equality of
game states is equality of the literal fractions the program computes. -/
structure Q where
  num : ℤ
  den : ℤ
  deriving DecidableEq, Repr

instance : Add Q := ⟨fun a b => ⟨a.num * b.den + b.num * a.den, a.den * b.den⟩⟩

instance : Mul Q := ⟨fun a b => ⟨a.num * b.num, a.den * b.den⟩⟩

instance : Neg Q := ⟨fun a => ⟨-a.num, a.den⟩⟩

instance : IntCast Q := ⟨fun n => ⟨n, 1⟩⟩

instance instOfNatQ (n : ℕ) : OfNat Q n := ⟨⟨(n : ℤ), 1⟩⟩

/-- Order by cross-multiplication (correct for positive denominators). -/
def Q.lt (a b : Q) : Prop := a.num * b.den < b.num * a.den

instance : LT Q := ⟨Q.lt⟩

instance (a b : Q) : Decidable (a < b) :=
  inferInstanceAs (Decidable (a.num * b.den < b.num * a.den))

lemma Q.lt_def {a b : Q} : a < b ↔ a.num * b.den < b.num * a.den := Iff.rfl

lemma Q.lt_asymm {a b : Q} (h : a < b) : ¬ b < a := by
  rw [Q.lt_def] at *
  omega

/-- Value of a `Q` as a Mathlib rational. -/
def Q.val (a : Q) : ℚ := (a.num : ℚ) / (a.den : ℚ)

lemma Q.val_add (a b : Q) (ha : a.den ≠ 0) (hb : b.den ≠ 0) :
    (a + b).val = a.val + b.val := by
  have ha' : (a.den : ℚ) ≠ 0 := Int.cast_ne_zero.mpr ha
  have hb' : (b.den : ℚ) ≠ 0 := Int.cast_ne_zero.mpr hb
  show ((a.num * b.den + b.num * a.den : ℤ) : ℚ) / ((a.den * b.den : ℤ) : ℚ) = _
  rw [Q.val, Q.val]
  push_cast
  field_simp

lemma Q.val_mul (a b : Q) (ha : a.den ≠ 0) (hb : b.den ≠ 0) :
    (a * b).val = a.val * b.val := by
  have ha' : (a.den : ℚ) ≠ 0 := Int.cast_ne_zero.mpr ha
  have hb' : (b.den : ℚ) ≠ 0 := Int.cast_ne_zero.mpr hb
  show ((a.num * b.num : ℤ) : ℚ) / ((a.den * b.den : ℤ) : ℚ) = _
  rw [Q.val, Q.val]
  push_cast
  field_simp

lemma Q.val_neg (a : Q) : (-a).val = -a.val := by
  show ((-a.num : ℤ) : ℚ) / (a.den : ℚ) = _
  rw [Q.val]
  push_cast
  ring

lemma Q.val_lt_val (a b : Q) (ha : 0 < a.den) (hb : 0 < b.den) :
    a.val < b.val ↔ a < b := by
  rw [Q.val, Q.val, Q.lt_def,
    div_lt_div_iff₀ (by exact_mod_cast ha) (by exact_mod_cast hb)]
  exact_mod_cast Iff.rfl

/-- Python's builtin `round` on a fraction with positive denominator:
round half to even.  `f` is the floor; the tie test compares twice the
fractional remainder against the denominator. -/
def pyround (q : Q) : ℤ :=
  let f := Int.fdiv q.num q.den
  let r2 := 2 * (q.num - f * q.den)
  if r2 < q.den then f
  else if q.den < r2 then f + 1
  else if f % 2 = 0 then f else f + 1

/-- `pygame.Rect`: integer top-left corner plus width and height. -/
structure Rect where
  x : ℤ
  y : ℤ
  w : ℤ
  h : ℤ
  deriving DecidableEq, Repr

namespace Rect

/-- `rect.right`. -/
def right (r : Rect) : ℤ := r.x + r.w

/-- `rect.bottom`. -/
def bottom (r : Rect) : ℤ := r.y + r.h

/-- `rect.centerx = x + w // 2` (Python floor division). -/
def centerx (r : Rect) : ℤ := r.x + r.w / 2

/-- `rect.centery = y + h // 2`. -/
def centery (r : Rect) : ℤ := r.y + r.h / 2

/-- Assigning `rect.right = v` moves the rectangle. -/
def setRight (r : Rect) (v : ℤ) : Rect := { r with x := v - r.w }

/-- Assigning `rect.left = v`. -/
def setLeft (r : Rect) (v : ℤ) : Rect := { r with x := v }

/-- Assigning `rect.bottom = v`. -/
def setBottom (r : Rect) (v : ℤ) : Rect := { r with y := v - r.h }

/-- Assigning `rect.top = v`. -/
def setTop (r : Rect) (v : ℤ) : Rect := { r with y := v }

/-- A rectangle of size `w × h` with its midbottom point at `(mx, my)`,
as built by `get_rect(midbottom=...)`. -/
def ofMidbottom (w h mx my : ℤ) : Rect := { x := mx - w / 2, y := my - h, w := w, h := h }

/-- A rectangle of size `w × h` centred at `(cx, cy)`,
as built by `get_rect(center=...)`. -/
def ofCenter (w h cx cy : ℤ) : Rect := { x := cx - w / 2, y := cy - h / 2, w := w, h := h }

end Rect

/-- `pygame.Rect.colliderect`: strict overlap on both axes; rectangles that
only touch do not collide. -/
def colliderect (a b : Rect) : Bool :=
  decide (a.x < b.x + b.w ∧ b.x < a.x + a.w ∧ a.y < b.y + b.h ∧ b.y < a.y + a.h)

-- ------------------------ CONFIG (src/main.py lines 10-35) ------------------------

def WIDTH : ℤ := 960
def HEIGHT : ℤ := 640
def FPS : ℤ := 60
def TILE : ℤ := 48
def GRAVITY : Q := ⟨4, 5⟩
def PLAYER_SPEED : ℤ := 6
def PLAYER_JUMP_POWER : Q := ⟨-15, 1⟩
def DOUBLE_JUMP_MULT : Q := ⟨19, 20⟩
def COYOTE_TIME : ℤ := 8
def JUMP_BUFFER : ℤ := 8
def MAX_LEVEL : ℤ := 6

-- ------------------------ PLAYER (src/main.py lines 125-240) ------------------------

/-- State of the `Player` sprite (`Player.__init__`). -/
structure Player where
  rect : Rect
  velx : Q
  vely : Q
  speed : ℤ
  jump_power : Q
  on_ground : Bool
  double_jump : Bool
  dash_cooldown : ℤ
  facing : ℤ
  lives : ℤ
  score : ℤ
  coyote_timer : ℤ
  jump_buffer : ℤ
  deriving DecidableEq, Repr

/-- `Player(x, y)`: 34×46 rectangle with midbottom `(x, y)`. -/
def Player.init (x y : ℤ) : Player :=
  { rect := Rect.ofMidbottom 34 46 x y
    velx := 0, vely := 0
    speed := PLAYER_SPEED
    jump_power := PLAYER_JUMP_POWER
    on_ground := false
    double_jump := true
    dash_cooldown := 0
    facing := 1
    lives := 3
    score := 0
    coyote_timer := 0
    jump_buffer := 0 }

/-- Axis selector of `Player.collide(platforms, dir)`. -/
inductive Axis where
  | x
  | y
  deriving DecidableEq, Repr

/-- One iteration of the `for p in hits` loop of `Player.collide`. -/
def collideStep (dir : Axis) (st : Player) (q : Rect) : Player :=
  match dir with
  | .x =>
    let st :=
      if st.velx > 0 then { st with rect := st.rect.setRight q.x }
      else if st.velx < 0 then { st with rect := st.rect.setLeft (q.x + q.w) }
      else st
    { st with velx := 0 }
  | .y =>
    if st.vely > 0 then
      { st with rect := st.rect.setBottom q.y, on_ground := true, vely := 0 }
    else if st.vely < 0 then
      { st with rect := st.rect.setTop (q.y + q.h), vely := 0 }
    else st

/-- `Player.collide(platforms, dir)` (lines 219-235): the overlap set is
computed once from the current rectangle, then each hit is resolved in
group (insertion) order. -/
def Player.collide (st : Player) (platforms : List Rect) (dir : Axis) : Player :=
  let hits := platforms.filter (fun q => colliderect st.rect q)
  hits.foldl (collideStep dir) st

/-- `Player.collide` unfolded to its hit-list fold. -/
lemma Player.collide_def (st : Player) (platforms : List Rect) (dir : Axis) :
    st.collide platforms dir =
      (platforms.filter (fun q => colliderect st.rect q)).foldl (collideStep dir) st := rfl

/-- `self.vel.y += GRAVITY` (line 189). -/
def gravityStep (p : Player) : Player := { p with vely := p.vely + GRAVITY }

/-- `self.rect.x += round(self.vel.x)` (line 190). -/
def xMove (p : Player) : Player :=
  { p with rect := { p.rect with x := p.rect.x + pyround p.velx } }

/-- `self.rect.y += round(self.vel.y)` (line 192). -/
def yMove (p : Player) : Player :=
  { p with rect := { p.rect with y := p.rect.y + pyround p.vely } }

/-- The physics block of `Player.update` (lines 188-193): gravity, then the
X move and X resolution, then the Y move and Y resolution, in that order. -/
def physicsStep (platforms : List Rect) (p : Player) : Player :=
  ((yMove ((xMove (gravityStep p)).collide platforms .x)).collide platforms .y)

/-- The jump block of `Player.update` (lines 172-184).  `prev` is
`prev_on_ground`, captured at the top of `update`. -/
def jumpStep (prev : Bool) (p : Player) : Player :=
  if p.jump_buffer > 0 then
    if prev || p.coyote_timer > 0 then
      { p with vely := p.jump_power, on_ground := false, double_jump := true,
               jump_buffer := 0 }
    else if p.double_jump then
      { p with vely := p.jump_power * DOUBLE_JUMP_MULT, double_jump := false,
               jump_buffer := 0 }
    else p
  else p

/-- Projectile owner tag. -/
inductive Owner where
  | player
  | enemy
  deriving DecidableEq, Repr

/-- The `Bullet` sprite: an 8×8 rectangle with a rational velocity. -/
structure Bullet where
  rect : Rect
  velx : Q
  vely : Q
  owner : Owner
  deriving DecidableEq, Repr

/-- `Bullet(pos, angle, speed, owner)` with the velocity
`(cos(angle)*speed, sin(angle)*speed)` supplied as `vel` (the
trigonometry of the external aim input is not re-derived here). -/
def Bullet.init (cx cy : ℤ) (vel : Q × Q) (owner : Owner) : Bullet :=
  { rect := Rect.ofCenter 8 8 cx cy, velx := vel.1, vely := vel.2, owner := owner }

/-- Per-frame external inputs consumed by `Player.update`: held keys,
mouse button state, and the aim-derived velocity of a bullet spawned this
frame. -/
structure PlayerIn where
  keyLeft : Bool
  keyRight : Bool
  keyDash : Bool
  mousePressed : Bool
  aimVel : Q × Q
  deriving Repr

/-- The held-movement-key block of `Player.update` (lines 154-161):
horizontal velocity is set per frame from the held keys, never
accumulated. -/
def moveKeysStep (inp : PlayerIn) (p : Player) : Player :=
  let p := { p with velx := 0 }
  let p := if inp.keyLeft then { p with velx := -(p.speed : Q), facing := -1 } else p
  if inp.keyRight then { p with velx := (p.speed : Q), facing := 1 } else p

/-- The dash block of `Player.update` (lines 164-170): a dash sets a large
fixed horizontal velocity toward the facing direction and arms a cooldown,
which is decremented every frame it is positive. -/
def dashStep (inp : PlayerIn) (p : Player) : Player :=
  let p := if inp.keyDash && decide (p.dash_cooldown ≤ 0) then
      { p with velx := 18 * (p.facing : Q), dash_cooldown := 45 } else p
  if p.dash_cooldown > 0 then { p with dash_cooldown := p.dash_cooldown - 1 } else p

/-- The jump-buffer decay (lines 185-186): runs only when no jump fired
(a fired jump zeroes the buffer first). -/
def bufferDecayStep (p : Player) : Player :=
  if p.jump_buffer > 0 then { p with jump_buffer := p.jump_buffer - 1 } else p

/-- The coyote-timer block (lines 195-200): landing re-arms the coyote
timer and restores the double-jump charge; airborne frames decay the
timer. -/
def coyoteStep (p : Player) : Player :=
  if p.on_ground then { p with coyote_timer := COYOTE_TIME, double_jump := true }
  else if p.coyote_timer > 0 then { p with coyote_timer := p.coyote_timer - 1 } else p

/-- The shooting block (lines 203-211): while the mouse is held and fewer
than 6 player bullets live, spawn one bullet from the player's centre with
the aim-derived velocity. -/
def shootStep (inp : PlayerIn) (p : Player) (bullets : List Bullet) : List Bullet :=
  if inp.mousePressed && decide (bullets.length < 6) then
    bullets ++ [Bullet.init p.rect.centerx p.rect.centery inp.aimVel .player]
  else bullets

/-- The falling-death check (lines 213-217): below the level bottom plus a
200-pixel margin, one life is lost and the update reports `'died'`. -/
def fallStep (levelH : ℤ) (p : Player) : Player × Bool :=
  if p.rect.y > levelH + 200 then ({ p with lives := p.lives - 1 }, true)
  else (p, false)

/-- `Player.update(platforms, bullets_group, particles)` (lines 150-217).
Returns the new player, the new player-bullet group and whether the frame
ended in the `'died'` outcome.  Particle spawns are omitted (cosmetic). -/
def playerUpdate (inp : PlayerIn) (platforms : List Rect) (levelH : ℤ)
    (bullets : List Bullet) (p : Player) : Player × List Bullet × Bool :=
  let prev := p.on_ground
  let p := { p with on_ground := false }
  let p := moveKeysStep inp p
  let p := dashStep inp p
  let p := jumpStep prev p
  let p := bufferDecayStep p
  let p := physicsStep platforms p
  let p := coyoteStep p
  let bullets := shootStep inp p bullets
  let pd := fallStep levelH p
  (pd.1, bullets, pd.2)

/-- `Player.respawn(point)` (lines 237-240). -/
def Player.respawn (p : Player) (point : ℤ × ℤ) : Player :=
  { p with rect := Rect.ofMidbottom 34 46 point.1 point.2, velx := 0, vely := 0 }

-- ------------------------ ENEMY (src/main.py lines 256-310) ------------------------

/-- Enemy behaviour variant (`etype`). -/
inductive EType where
  | patrol
  | chaser
  | shooter
  deriving DecidableEq, Repr

/-- State of the `Enemy` sprite (`Enemy.__init__`): a 36×40 rectangle. -/
structure Enemy where
  rect : Rect
  etype : EType
  speed : Q
  dir : ℤ
  aggro : Bool
  shoot_timer : ℤ
  vel_y : Q
  deriving DecidableEq, Repr

/-- `Enemy(x, y, etype, speed)`: the `random.choice([-1,1])` direction and
`random.randint(30,120)` shoot timer are supplied by the caller's random
draws `d` and `st`. -/
def Enemy.init (x y : ℤ) (etype : EType) (speed : Q) (d st : ℤ) : Enemy :=
  { rect := Rect.ofMidbottom 36 40 x y
    etype := etype, speed := speed, dir := d, aggro := false
    shoot_timer := st, vel_y := 0 }

/-- Random draws consumed by one `Enemy.update` call: the re-armed shoot
timer (`random.randint(40, 120)`) and the aim-derived velocity of a bullet
fired at the player. -/
structure EnemyIn where
  newShootTimer : ℤ
  aimVel : Q × Q
  deriving Repr

/-- The ground-probe sensor rectangle of `Enemy.update` (lines 271-272):
an 8×8 box just ahead of and below the leading edge. -/
def enemyAhead (e : Enemy) : Rect :=
  { x := e.rect.centerx + e.dir * (e.rect.w / 2 + 6) - 4, y := e.rect.bottom, w := 8, h := 8 }

/-- The proposed forward position of `Enemy.update` (lines 274-275). -/
def enemyProposed (e : Enemy) : Rect :=
  { e.rect with x := e.rect.x + pyround (e.speed * (e.dir : Q)) }

/-- The flip condition of `Enemy.update` (line 277): no ground under the
probe, or a wall at the proposed position. -/
def enemyProbeFlip (platforms : List Rect) (e : Enemy) : Bool :=
  !(platforms.any (fun q => colliderect q (enemyAhead e))) ||
    (platforms.any (fun q => colliderect q (enemyProposed e)))

/-- The horizontal/behaviour block of `Enemy.update` (lines 270-299):
ground/wall probing with direction flip for `patrol` and `chaser`, sticky
aggro chase for `chaser`, timed firing for `shooter`.  Returns the updated
enemy and any bullet fired this frame. -/
def enemyBehavior (inp : EnemyIn) (platforms : List Rect) (prect : Rect)
    (e : Enemy) : Enemy × List Bullet :=
  match e.etype with
  | .shooter =>
    let e := { e with shoot_timer := e.shoot_timer - 1 }
    if e.shoot_timer ≤ 0 then
      ({ e with shoot_timer := inp.newShootTimer },
       [Bullet.init e.rect.centerx e.rect.centery inp.aimVel .enemy])
    else (e, [])
  | _ =>
    -- patrol and chaser share the probes
    if enemyProbeFlip platforms e then
      ({ e with dir := -e.dir }, [])
    else
      match e.etype with
      | .patrol =>
        ({ e with rect := { e.rect with x := e.rect.x + pyround (e.speed * (e.dir : Q)) } }, [])
      | _ =>
        -- chaser
        let e := if |prect.centerx - e.rect.centerx| < 400 then { e with aggro := true } else e
        if e.aggro then
          if prect.centerx < e.rect.centerx then
            ({ e with rect := { e.rect with x := e.rect.x - pyround e.speed }, dir := -1 }, [])
          else
            ({ e with rect := { e.rect with x := e.rect.x + pyround e.speed }, dir := 1 }, [])
        else (e, [])

/-- One iteration of the downward-rest loop of `Enemy.update` (lines
305-308). -/
def enemyRestStep (e : Enemy) (q : Rect) : Enemy :=
  if e.vel_y > 0 ∧ e.rect.bottom > q.y then
    { e with rect := e.rect.setBottom q.y, vel_y := 0 }
  else e

/-- The vertical-physics block of `Enemy.update` (lines 301-308): gravity,
move, and downward-only resolution against platforms. -/
def enemyVertical (platforms : List Rect) (e : Enemy) : Enemy :=
  let e := { e with vel_y := e.vel_y + GRAVITY }
  let e := { e with rect := { e.rect with y := e.rect.y + pyround e.vel_y } }
  let hits := platforms.filter (fun q => colliderect e.rect q)
  hits.foldl enemyRestStep e

/-- `Enemy.update(platforms, player, bullets_group, particles)`
(lines 269-310), minus the cosmetic particle emission. -/
def enemyUpdate (inp : EnemyIn) (platforms : List Rect) (prect : Rect)
    (e : Enemy) : Enemy × List Bullet :=
  let ebs := enemyBehavior inp platforms prect e
  (enemyVertical platforms ebs.1, ebs.2)

-- ------------------------ BULLET UPDATE (src/main.py lines 250-254) ------------------------

/-- The movement part of `Bullet.update`. -/
def bulletMove (b : Bullet) : Bullet :=
  { b with rect := { b.rect with
      x := b.rect.x + pyround b.velx,
      y := b.rect.y + pyround b.vely } }

/-- `Bullet.update` over a whole group: every bullet moves, then the ones
outside the level bounds are killed. -/
def bulletsUpdate (lw lh : ℤ) (bs : List Bullet) : List Bullet :=
  (bs.map bulletMove).filter (fun b =>
    !(decide (b.rect.right < 0) || decide (b.rect.x > lw) ||
      decide (b.rect.y > lh) || decide (b.rect.bottom < 0)))

-- ------------------------ CHECKPOINT (src/main.py lines 103-123) ------------------------

/-- State of the `Checkpoint` sprite: a 20×28 flag rectangle. -/
structure Checkpoint where
  rect : Rect
  activated : Bool
  respawn_point : ℤ × ℤ
  deriving DecidableEq, Repr

/-- `Checkpoint(platform)`: flag with midbottom at the platform's top
centre, initially inactive, respawn point at the flag's top centre. -/
def Checkpoint.init (platform : Rect) : Checkpoint :=
  let rect := Rect.ofMidbottom 20 28 platform.centerx platform.y
  { rect := rect, activated := false
    respawn_point := (rect.centerx, rect.y) }

-- ------------------------ LEVEL BUILDER (src/main.py lines 314-415) ------------------------

/-- The three authored level templates (`LEVEL_TEMPLATES`). -/
def LEVEL_TEMPLATES : List (List String) :=
  [ [ ".................................................."
    , ".................................................."
    , ".................................................."
    , "....................C............................."
    , "..........#####..........#####...................."
    , ".................................................."
    , "......P..........................................."
    , "##########......#####.............######.........."
    , ".................................................."
    , ".................................................."
    ]
  , [ ".................................................."
    , "....................C............................."
    , "...............#####.............#####............"
    , ".................................................."
    , "......P.....E......#####.....E...................."
    , "....##########....................###########...."
    , ".................................................."
    , "..................#####......................E..."
    , ".................................................."
    , ".................................................."
    ]
  , [ ".................................................."
    , "....................................C............."
    , "..........#####..............####...............E"
    , ".................................................."
    , "........P...........#####........................."
    , "....##########....................######.........."
    , ".............................E...................."
    , "....................#####........................."
    , ".................................................."
    , ".................................................."
    ]
  ]

/-- Random draws for one `E` tile of a template: `random.choice` of the
variant and `random.uniform(0.8, 1.6)` speed, plus the draws inside
`Enemy.__init__`. -/
structure SpawnRnd where
  etype : EType
  speed : Q
  edir : ℤ
  stimer : ℤ
  deriving Repr

/-- Random draws for one extra enemy spawned by `LevelManager.load_level`:
grid position `randint`s, the patrol/chaser choice, and the draws inside
`Enemy.__init__`. -/
structure ExtraRnd where
  gx : ℤ
  gy : ℤ
  chaser : Bool
  edir : ℤ
  stimer : ℤ
  deriving Repr

/-- All random draws of one level load, indexed by spawn order. -/
structure LoadRnd where
  tileRnd : ℕ → SpawnRnd
  extraRnd : ℕ → ExtraRnd

/-- Accumulator of the template scan in `build_level_from_template`. -/
structure BuildAcc where
  platforms : List Rect
  enemies : List Enemy
  collectibles : List Rect
  spawn : ℤ × ℤ
  ecount : ℕ
  deriving Repr

/-- One grid cell of the template scan (lines 366-383). -/
def buildCell (tileRnd : ℕ → SpawnRnd) (r c : ℕ) (ch : Char) (acc : BuildAcc) : BuildAcc :=
  let x : ℤ := (c : ℤ) * TILE
  let y : ℤ := (r : ℤ) * TILE
  if ch = '#' then
    { acc with platforms := acc.platforms ++ [{ x := x, y := y, w := TILE, h := TILE }] }
  else if ch = 'P' then
    { acc with spawn := (x + TILE / 2, y + TILE) }
  else if ch = 'E' then
    let rd := tileRnd acc.ecount
    { acc with
        enemies := acc.enemies ++
          [Enemy.init (x + TILE / 2) (y + TILE) rd.etype rd.speed rd.edir rd.stimer]
        ecount := acc.ecount + 1 }
  else if ch = 'C' then
    { acc with collectibles := acc.collectibles ++ [Rect.ofCenter 20 20 (x + TILE / 2) (y + TILE / 2)] }
  else acc

/-- One row of the template scan. -/
def buildRow (tileRnd : ℕ → SpawnRnd) (r : ℕ) (row : String) (acc : BuildAcc) : BuildAcc :=
  (row.toList.enum).foldl (fun acc cc => buildCell tileRnd r cc.1 cc.2 acc) acc

/-- `max(platforms, key=lambda p: (p.rect.left, -p.rect.top))`: Python's
`max` keeps the first element among equal keys and replaces the current
best only on a strictly greater key. -/
def rightmostPlatform (p : Rect) (l : List Rect) : Rect :=
  l.foldl (fun best q =>
    if best.x < q.x ∨ (best.x = q.x ∧ q.y < best.y) then q else best) p

/-- Result of `build_level_from_template` / `LevelManager.load_level`. -/
structure LevelData where
  platforms : List Rect
  enemies : List Enemy
  collectibles : List Rect
  spawn : ℤ × ℤ
  checkpoints : List Checkpoint
  width : ℤ
  height : ℤ
  deriving Repr

/-- `build_level_from_template(template)` (lines 355-391). -/
def buildLevelFromTemplate (tileRnd : ℕ → SpawnRnd) (template : List String) : LevelData :=
  let rows : ℤ := template.length
  let cols : ℤ := (template.headD "").length
  let acc : BuildAcc :=
    { platforms := [], enemies := [], collectibles := []
      spawn := (TILE * 2, TILE * 6), ecount := 0 }
  let acc := (template.enum).foldl (fun acc rr => buildRow tileRnd rr.1 rr.2 acc) acc
  let checkpoints :=
    match acc.platforms with
    | [] => []
    | p :: rest => [Checkpoint.init (rightmostPlatform p rest)]
  { platforms := acc.platforms, enemies := acc.enemies
    collectibles := acc.collectibles, spawn := acc.spawn
    checkpoints := checkpoints, width := cols * TILE, height := rows * TILE }

/-- A row of the `DIFFICULTY` table. -/
structure Settings where
  enemy_count : ℤ
  enemy_speed : Q
  deriving DecidableEq, Repr

/-- `DIFFICULTY.get(min(n, max(DIFFICULTY.keys())), DIFFICULTY[max(...)])`:
the level index is clamped to at most 5; any clamped index outside the
table (only possible for `n ≤ 0`) falls back to the tier-5 entry. -/
def difficultyFor (n : ℤ) : Settings :=
  let k := min n 5
  if k = 1 then { enemy_count := 4, enemy_speed := ⟨1, 1⟩ }
  else if k = 2 then { enemy_count := 6, enemy_speed := ⟨6, 5⟩ }
  else if k = 3 then { enemy_count := 8, enemy_speed := ⟨3, 2⟩ }
  else if k = 4 then { enemy_count := 10, enemy_speed := ⟨19, 10⟩ }
  else { enemy_count := 12, enemy_speed := ⟨23, 10⟩ }

/-- `LevelManager.load_level(n)` (lines 397-415): build from the template
`LEVEL_TEMPLATES[(n-1) % len(LEVEL_TEMPLATES)]`, then top enemies up to the
difficulty's `enemy_count` at oracle-drawn grid positions. -/
def loadLevel (rnd : LoadRnd) (n : ℤ) : LevelData × Settings :=
  let template := LEVEL_TEMPLATES.getD ((n - 1) % 3).toNat []
  let ld := buildLevelFromTemplate rnd.tileRnd template
  let settings := difficultyFor n
  let extra := (settings.enemy_count - ld.enemies.length).toNat
  let ld := { ld with
    enemies := ld.enemies ++ (List.range extra).map (fun i =>
      let rd := rnd.extraRnd i
      Enemy.init (rd.gx * TILE) (rd.gy * TILE)
        (if rd.chaser then .chaser else .patrol) settings.enemy_speed rd.edir rd.stimer) }
  (ld, settings)

-- ------------------------ GAME STATE (src/main.py run_game, lines 446-623) ------------------------

/-- The `Camera` (lines 65-77): viewport position plus level bounds. -/
structure Camera where
  x : ℤ
  y : ℤ
  width : ℤ
  height : ℤ
  deriving DecidableEq, Repr

/-- `Camera.update(target)` (lines 72-77). -/
def cameraUpdate (target : Rect) (cam : Camera) : Camera :=
  let x := target.centerx - WIDTH / 2
  let y := target.centery - HEIGHT / 2
  let x := max 0 (min x (cam.width - WIDTH))
  let y := max 0 (min y (cam.height - HEIGHT))
  { cam with x := x, y := y }

/-- The mutable state of one `run_game` session between frames. -/
structure GState where
  highscore : ℤ
  level_num : ℤ
  paused : Bool
  game_over : Bool
  win : Bool
  level_clear_cool : ℤ
  level_transition_timer : ℤ
  respawn_point : ℤ × ℤ
  player_spawn : ℤ × ℤ
  player : Player
  platforms : List Rect
  enemies : List Enemy
  collectibles : List Rect
  checkpoints : List Checkpoint
  bullets : List Bullet
  enemy_bullets : List Bullet
  levelW : ℤ
  levelH : ℤ
  camera : Camera
  deriving Repr

/-- Keys the event loop of `run_game` distinguishes. -/
inductive GKey where
  | kp
  | kr
  | kjump
  | kother
  deriving DecidableEq, Repr

/-- A pygame event, reduced to what `run_game` inspects. -/
inductive GEvent where
  | quit
  | keydown (k : GKey)
  deriving DecidableEq, Repr

/-- Outcome of the event loop at the top of a frame. -/
inductive EvOutcome where
  | exitGame
  | restart
  | next
  deriving DecidableEq, Repr

/-- The `for event in events` loop (lines 479-490).  Returns the list of
high-score records written by `save_json` (only ever on the QUIT path and
only on a strict improvement), the control outcome, and the state (the P
key may have toggled `paused`).  `sys.exit()` and `return True` leave the
loop immediately.  `pauseToggle` is the P-key branch (lines 487-488). -/
def pauseToggle (k : GKey) (s : GState) : GState :=
  if k = .kp && !s.game_over && !s.win && decide (s.level_transition_timer = 0)
  then { s with paused := !s.paused } else s

def processEvents (s : GState) : List GEvent → List ℤ × EvOutcome × GState
  | [] => ([], .next, s)
  | .quit :: _ =>
    (if s.player.score > s.highscore then [s.player.score] else [], .exitGame, s)
  | .keydown k :: rest =>
    if k = .kr then ([], .restart, s)
    else processEvents (pauseToggle k s) rest

/-- All external inputs of one frame: the event queue, held keys, mouse
state, the aim oracle, the per-enemy random draws and the random draws of
a possible level load. -/
structure FrameIn where
  events : List GEvent
  keyLeft : Bool
  keyRight : Bool
  keyDash : Bool
  mousePressed : Bool
  aimVel : Q × Q
  enemyIn : ℕ → EnemyIn
  loadRnd : LoadRnd

/-- The level-advance block (lines 505-523), reached when the transition
countdown hits zero. -/
def advanceLevel (rnd : LoadRnd) (s : GState) : GState :=
  let n := s.level_num + 1
  if n > MAX_LEVEL then { s with level_num := n, win := true }
  else
    let ld := (loadLevel rnd n).1
    { s with
        level_num := n
        levelW := ld.width
        levelH := ld.height
        camera := { x := 0, y := 0, width := ld.width, height := ld.height }
        platforms := ld.platforms
        enemies := ld.enemies
        collectibles := ld.collectibles
        checkpoints := ld.checkpoints
        player_spawn := ld.spawn
        respawn_point := ld.spawn
        player := { s.player.respawn ld.spawn with
                      lives := max 1 s.player.lives
                      score := s.player.score + 500 * n } }

/-- The frozen branch (lines 491-524): paused / game-over / win / level
transition.  Simulation does not advance; only the transition countdown
ticks, triggering `advanceLevel` when it reaches zero. -/
def frozenStep (rnd : LoadRnd) (s : GState) : GState :=
  if s.level_transition_timer > 0 then
    let s := { s with level_transition_timer := s.level_transition_timer - 1 }
    if s.level_transition_timer ≤ 0 then advanceLevel rnd s else s
  else s

/-- `player.handle_events(events)` (lines 144-148): any jump keydown
re-arms the jump buffer to `JUMP_BUFFER` frames. -/
def handleJumpEvents (events : List GEvent) (p : Player) : Player :=
  if events.any (fun e => e = .keydown .kjump) then { p with jump_buffer := JUMP_BUFFER } else p

/-- Player segment of a simulated frame (lines 527-536): jump-event
buffering, `player.update`, and the fall-death outcome (respawn at the
active respawn point, game over when lives are exhausted). -/
def playerSeg (inp : FrameIn) (s : GState) : GState :=
  let p := handleJumpEvents inp.events s.player
  let pin : PlayerIn :=
    { keyLeft := inp.keyLeft, keyRight := inp.keyRight, keyDash := inp.keyDash
      mousePressed := inp.mousePressed, aimVel := inp.aimVel }
  let pbd := playerUpdate pin s.platforms s.levelH s.bullets p
  if pbd.2.2 then
    let p := pbd.1.respawn s.respawn_point
    { s with player := p, bullets := pbd.2.1,
             game_over := if p.lives ≤ 0 then true else s.game_over }
  else
    { s with player := pbd.1, bullets := pbd.2.1 }

/-- `bullets.update()` (line 538). -/
def bulletsSeg (s : GState) : GState :=
  { s with bullets := bulletsUpdate s.levelW s.levelH s.bullets }

/-- The `for e in list(enemies)` update loop (lines 540-541): every enemy
updates against the already-updated player; bullets fired are appended to
the enemy-bullet group.  Enemies do not read each other, so the sequential
loop is a map with an accumulating bullet list. -/
def enemiesSeg (inp : FrameIn) (s : GState) : GState :=
  let upd := (s.enemies.enum).map (fun ie =>
    enemyUpdate (inp.enemyIn ie.1) s.platforms s.player.rect ie.2)
  { s with enemies := upd.map Prod.fst
           enemy_bullets := s.enemy_bullets ++ (upd.map Prod.snd).flatten }

/-- `enemy_bullets.update()` (line 542): bullets fired this frame move
too. -/
def enemyBulletsSeg (s : GState) : GState :=
  { s with enemy_bullets := bulletsUpdate s.levelW s.levelH s.enemy_bullets }

/-- The `for b in list(bullets)` player-projectile resolution (lines
545-552): each surviving bullet kills the first enemy it overlaps, is
consumed, and awards 100 score. -/
def bulletEnemyHits : List Bullet → List Enemy → ℤ → List Bullet × List Enemy × ℤ
  | [], es, sc => ([], es, sc)
  | b :: bs, es, sc =>
    match es.findIdx? (fun e => colliderect b.rect e.rect) with
    | some i => bulletEnemyHits bs (es.eraseIdx i) (sc + 100)
    | none =>
      let r := bulletEnemyHits bs es sc
      (b :: r.1, r.2)

/-- State segment for lines 545-552. -/
def bulletHitsSeg (s : GState) : GState :=
  let r := bulletEnemyHits s.bullets s.enemies s.player.score
  { s with bullets := r.1, enemies := r.2.1, player := { s.player with score := r.2.2 } }

/-- The `for b in list(enemy_bullets)` loop (lines 553-560): every enemy
bullet overlapping the player is consumed and costs a life; the game-over
flag is raised the moment lives hit zero. -/
def enemyBulletHits (prect : Rect) : List Bullet → ℤ → Bool → List Bullet × ℤ × Bool
  | [], lives, go => ([], lives, go)
  | b :: bs, lives, go =>
    if colliderect prect b.rect then
      let lives := lives - 1
      let go := if lives ≤ 0 then true else go
      enemyBulletHits prect bs lives go
    else
      let r := enemyBulletHits prect bs lives go
      (b :: r.1, r.2)

/-- State segment for lines 553-560. -/
def enemyBulletHitsSeg (s : GState) : GState :=
  let r := enemyBulletHits s.player.rect s.enemy_bullets s.player.lives s.game_over
  { s with enemy_bullets := r.1, player := { s.player with lives := r.2.1 }, game_over := r.2.2 }

/-- The enemy-contact branch (lines 563-569): one life lost and a fixed
60-pixel knockback when any enemy overlaps the player. -/
def touchSeg (s : GState) : GState :=
  if s.enemies.any (fun e => colliderect s.player.rect e.rect) then
    let lives := s.player.lives - 1
    let p := { s.player with
      lives := lives,
      rect := { s.player.rect with x := s.player.rect.x - 60 } }
    { s with player := p, game_over := if lives ≤ 0 then true else s.game_over }
  else s

/-- The collectible loop (lines 572-577): overlapped collectibles are
consumed for 50 score each. -/
def collectSeg (s : GState) : GState :=
  let hit := s.collectibles.filter (fun c => colliderect s.player.rect c)
  { s with collectibles := s.collectibles.filter (fun c => !(colliderect s.player.rect c))
           player := { s.player with score := s.player.score + 50 * hit.length } }

/-- The `for cp in list(checkpoints)` loop (lines 580-589): a first touch
activates the flag, adopts its respawn point and arms the transition
countdown (`int(FPS * 0.9) = 54`); an already-activated flag is left
alone. -/
def checkpointLoop (prect : Rect) :
    List Checkpoint → ℤ × ℤ → ℤ → List Checkpoint × (ℤ × ℤ) × ℤ
  | [], rp, t => ([], rp, t)
  | cp :: rest, rp, t =>
    if colliderect prect cp.rect && !cp.activated then
      let r := checkpointLoop prect rest cp.respawn_point 54
      ({ cp with activated := true } :: r.1, r.2)
    else
      let r := checkpointLoop prect rest rp t
      (cp :: r.1, r.2)

/-- State segment for lines 580-589. -/
def checkpointSeg (s : GState) : GState :=
  let r := checkpointLoop s.player.rect s.checkpoints s.respawn_point s.level_transition_timer
  { s with checkpoints := r.1, respawn_point := r.2.1, level_transition_timer := r.2.2 }

/-- The level-clear fallback (lines 591-599): a debounced counter that
arms the transition countdown only after the enemy and collectible sets
have stayed empty for more than `FPS * 1.2 = 72` consecutive frames. -/
def clearSeg (s : GState) : GState :=
  if s.enemies.length = 0 ∧ s.collectibles.length = 0 ∧ s.level_transition_timer = 0 then
    let cool := s.level_clear_cool + 1
    if cool > 72 then { s with level_transition_timer := 54, level_clear_cool := 0 }
    else { s with level_clear_cool := cool }
  else
    if ¬(s.enemies.length = 0 ∧ s.collectibles.length = 0) then
      { s with level_clear_cool := 0 }
    else s

/-- `camera.update(player)` (line 602). -/
def cameraSeg (s : GState) : GState :=
  { s with camera := cameraUpdate s.player.rect s.camera }

/-- One simulated (non-frozen) frame: lines 527-602 in source order. -/
def simStep (inp : FrameIn) (s : GState) : GState :=
  cameraSeg (clearSeg (checkpointSeg (collectSeg (touchSeg (enemyBulletHitsSeg
    (bulletHitsSeg (enemyBulletsSeg (enemiesSeg inp (bulletsSeg (playerSeg inp s))))))))))

/-- Result of one iteration of the `while True` loop of `run_game`. -/
inductive FrameResult where
  | exitGame (writes : List ℤ)
  | restart
  | next (s : GState)
  deriving Repr

/-- One full iteration of the `while True` loop of `run_game` (lines
476-623): event handling, then either the frozen branch or a simulated
frame.  Rendering calls are omitted. -/
def frameStep (inp : FrameIn) (s : GState) : FrameResult :=
  let r := processEvents s inp.events
  match r.2.1 with
  | .exitGame => .exitGame r.1
  | .restart => .restart
  | .next =>
    let s := r.2.2
    if s.paused || s.game_over || s.win || decide (s.level_transition_timer > 0) then
      .next (frozenStep inp.loadRnd s)
    else
      .next (simStep inp s)

/-- The `save_json` writes performed by a frame. -/
def FrameResult.writes : FrameResult → List ℤ
  | .exitGame ws => ws
  | _ => []

-- ------------------------ COLLISION LEMMAS ------------------------

/-- One X-resolution iteration zeroes the horizontal velocity. -/
lemma collideStep_x_velx (st : Player) (q : Rect) : (collideStep .x st q).velx = 0 := by
  simp only [collideStep]

/-- One X-resolution iteration changes at most `rect.x` and `velx`. -/
lemma collideStep_x_fields (st : Player) (q : Rect) :
    (collideStep .x st q).vely = st.vely ∧
    (collideStep .x st q).on_ground = st.on_ground ∧
    (collideStep .x st q).lives = st.lives ∧
    (collideStep .x st q).rect.y = st.rect.y ∧
    (collideStep .x st q).rect.w = st.rect.w ∧
    (collideStep .x st q).rect.h = st.rect.h := by
  simp only [collideStep]
  repeat' split
  all_goals simp [Rect.setRight, Rect.setLeft]

/-- An X-resolution pass started with zero horizontal velocity moves
nothing: every iteration only re-asserts `velx = 0`. -/
lemma foldl_collideStep_x_of_velx_zero (l : List Rect) (st : Player) (h : st.velx = 0) :
    l.foldl (collideStep .x) st = st := by
  induction l generalizing st with
  | nil => rfl
  | cons q t ih =>
    have hstep : collideStep .x st q = st := by
      have h1 : ¬ st.velx > 0 := by rw [h]; decide
      have h2 : ¬ st.velx < 0 := by rw [h]; decide
      simp only [collideStep]
      rw [if_neg h1, if_neg h2, ← h]
    rw [List.foldl_cons, hstep, ih st h]

/-- An X-resolution pass with at least one hit is the resolution against
the first hit alone (the first iteration zeroes `velx`, freezing the
rest of the loop). -/
lemma collide_x_eq_first (st : Player) (platforms : List Rect) (h0 : Rect) (t : List Rect)
    (hh : platforms.filter (fun q => colliderect st.rect q) = h0 :: t) :
    st.collide platforms .x = collideStep .x st h0 := by
  rw [Player.collide_def, hh, List.foldl_cons]
  exact foldl_collideStep_x_of_velx_zero t _ (collideStep_x_velx st h0)

/-- After an X-resolution iteration with (strictly signed) incoming
velocity, the player no longer overlaps the resolved rectangle. -/
lemma collideStep_x_no_overlap (st : Player) (q : Rect) (hv : st.velx < 0 ∨ st.velx > 0) :
    colliderect (collideStep .x st q).rect q = false := by
  rcases hv with hlt | hgt
  · have : collideStep .x st q =
        { st with rect := st.rect.setLeft (q.x + q.w), velx := 0 } := by
      simp only [collideStep]
      rw [if_neg (Q.lt_asymm hlt), if_pos hlt]
    rw [this]
    simp [colliderect, Rect.setLeft]
  · have : collideStep .x st q =
        { st with rect := st.rect.setRight q.x, velx := 0 } := by
      simp only [collideStep]
      rw [if_pos hgt]
    rw [this]
    simp [colliderect, Rect.setRight]

/-- A whole X-resolution pass changes at most `rect.x` and `velx`. -/
lemma foldl_collideStep_x_fields (l : List Rect) (st : Player) :
    (l.foldl (collideStep .x) st).vely = st.vely ∧
    (l.foldl (collideStep .x) st).on_ground = st.on_ground := by
  induction l generalizing st with
  | nil => exact ⟨rfl, rfl⟩
  | cons q t ih =>
    rw [List.foldl_cons]
    obtain ⟨h1, h2⟩ := ih (collideStep .x st q)
    obtain ⟨g1, g2, -⟩ := collideStep_x_fields st q
    exact ⟨h1.trans g1, h2.trans g2⟩

/-- A Y-resolution iteration never clears the grounded flag. -/
lemma collideStep_y_ground_mono (st : Player) (q : Rect) (h : st.on_ground = true) :
    (collideStep .y st q).on_ground = true := by
  simp only [collideStep]
  repeat' split
  all_goals simp [h]

/-- A Y-resolution iteration with zero vertical velocity does nothing. -/
lemma collideStep_y_of_vely_zero (st : Player) (q : Rect) (h : st.vely = 0) :
    collideStep .y st q = st := by
  have h1 : ¬ st.vely > 0 := by rw [h]; decide
  have h2 : ¬ st.vely < 0 := by rw [h]; decide
  simp only [collideStep]
  rw [if_neg h1, if_neg h2]

/-- Once grounded inside a Y-resolution pass, grounded it stays. -/
lemma foldl_collideStep_y_ground_mono (l : List Rect) (st : Player) (h : st.on_ground = true) :
    (l.foldl (collideStep .y) st).on_ground = true := by
  induction l generalizing st with
  | nil => exact h
  | cons q t ih => rw [List.foldl_cons]; exact ih _ (collideStep_y_ground_mono st q h)

/-- A Y-resolution pass started with zero vertical velocity does
nothing. -/
lemma foldl_collideStep_y_of_vely_zero (l : List Rect) (st : Player) (h : st.vely = 0) :
    l.foldl (collideStep .y) st = st := by
  induction l generalizing st with
  | nil => rfl
  | cons q t ih => rw [List.foldl_cons, collideStep_y_of_vely_zero st q h, ih st h]

/-- The grounded flag produced by a Y-resolution pass over the hit list
`l`, started ungrounded: it is raised exactly when the pass starts with
downward velocity and there is at least one hit. -/
lemma foldl_collideStep_y_ground_iff (l : List Rect) (st : Player) (hg : st.on_ground = false) :
    ((l.foldl (collideStep .y) st).on_ground = true ↔ (0 < st.vely ∧ l ≠ [])) := by
  induction l generalizing st with
  | nil => simp [hg]
  | cons q t ih =>
    rw [List.foldl_cons]
    by_cases hgt : st.vely > 0
    · have hstep : collideStep .y st q =
          { st with rect := st.rect.setBottom q.y, on_ground := true, vely := 0 } := by
        simp only [collideStep]
        rw [if_pos hgt]
      rw [hstep, foldl_collideStep_y_ground_mono t _ (by simp)]
      simp [hgt]
    · by_cases hlt : st.vely < 0
      · have hstep : collideStep .y st q =
            { st with rect := st.rect.setTop (q.y + q.h), vely := 0 } := by
          simp only [collideStep]
          rw [if_neg hgt, if_pos hlt]
        rw [hstep, foldl_collideStep_y_of_vely_zero t _ (by simp)]
        simp [hg, hgt]
      · have hstep : collideStep .y st q = st := by
          simp only [collideStep]
          rw [if_neg hgt, if_neg hlt]
        rw [hstep, ih st hg]
        simp [hgt]

-- ------------------------ C1 ------------------------

/-- C1 (amended): in every player physics step gravity is added first,
then the X move and the full X resolution (zeroing X-velocity on
contact) happen before any Y movement or Y resolution, and the grounded
flag is raised exactly by a downward (`vel.y > 0`) Y-axis collision.
However, the X-axis pass tests overlap at the *pre-Y-move* position, so
an entity whose vertical span is disjoint from every platform — as in a
diagonal approach into an exact tile corner — registers no X collision
at all: the corner tie-break resolves on the Y face, not the X face. -/
theorem C1_axis_order_amended (p : Player) (platforms : List Rect)
    (hg : p.on_ground = false) :
    physicsStep platforms p =
      ((yMove ((xMove (gravityStep p)).collide platforms .x)).collide platforms .y) ∧
    (∀ h0 t, platforms.filter (fun q => colliderect (xMove (gravityStep p)).rect q) = h0 :: t →
      ((xMove (gravityStep p)).collide platforms .x).velx = 0) ∧
    ((physicsStep platforms p).on_ground = true ↔
      (0 < p.vely + GRAVITY ∧
        platforms.filter
          (fun q => colliderect (yMove ((xMove (gravityStep p)).collide platforms .x)).rect q)
          ≠ [])) ∧
    ((∀ q ∈ platforms, ¬(p.rect.y < q.y + q.h ∧ q.y < p.rect.y + p.rect.h)) →
      (xMove (gravityStep p)).collide platforms .x = xMove (gravityStep p)) := by
  refine ⟨rfl, ?_, ?_, ?_⟩
  · intro h0 t hh
    rw [collide_x_eq_first _ _ _ _ hh]
    exact collideStep_x_velx _ _
  · have hA := foldl_collideStep_x_fields
      (platforms.filter (fun q => colliderect (xMove (gravityStep p)).rect q))
      (xMove (gravityStep p))
    have hvel : ((xMove (gravityStep p)).collide platforms .x).vely = p.vely + GRAVITY := by
      rw [Player.collide_def, hA.1]
      rfl
    have hgro : ((xMove (gravityStep p)).collide platforms .x).on_ground = false := by
      rw [Player.collide_def, hA.2]
      exact hg
    have := foldl_collideStep_y_ground_iff
      (platforms.filter
        (fun q => colliderect (yMove ((xMove (gravityStep p)).collide platforms .x)).rect q))
      (yMove ((xMove (gravityStep p)).collide platforms .x))
      (by simpa [yMove] using hgro)
    calc (physicsStep platforms p).on_ground = true
        ↔ (0 < (yMove ((xMove (gravityStep p)).collide platforms .x)).vely ∧
            platforms.filter
              (fun q => colliderect (yMove ((xMove (gravityStep p)).collide platforms .x)).rect q)
              ≠ []) := this
      _ ↔ _ := by rw [show (yMove ((xMove (gravityStep p)).collide platforms .x)).vely
                        = p.vely + GRAVITY from hvel]
  · intro hvert
    have hnil : platforms.filter (fun q => colliderect (xMove (gravityStep p)).rect q) = [] := by
      rw [List.filter_eq_nil_iff]
      intro q hq
      have hv := hvert q hq
      simp only [colliderect, xMove, gravityStep, decide_eq_true_eq]
      intro hcon
      exact hv ⟨hcon.2.2.1, hcon.2.2.2⟩
    rw [Player.collide_def, hnil]
    rfl

/-- The concrete corner entry of the C1 counterexample: the player's
bottom-right corner travels from `(93, 93)` diagonally through the
platform corner `(96, 96)` to `(99, 99)`. -/
def c1player : Player :=
  { Player.init 0 0 with rect := { x := 59, y := 47, w := 34, h := 46 },
                         velx := 6, vely := ⟨26, 5⟩, on_ground := false }

/-- The platform tile of the C1 counterexample. -/
def c1plat : Rect := { x := 96, y := 96, w := 48, h := 48 }

/-- C1 counterexample: moving diagonally into the exact tile corner, the
X pass registers no hit (the X check still sees the pre-Y-move vertical
position), so the step ends with X-velocity still `6` and the right edge
at `99`, past the X face at `96`: the entity lands on top (`bottom = 96`,
grounded), i.e. the corner is resolved against the Y face, not the X face
as the claim states. -/
theorem C1_corner_counterexample :
    colliderect (xMove (gravityStep c1player)).rect c1plat = false ∧
    (physicsStep [c1plat] c1player).velx = 6 ∧
    Rect.right (physicsStep [c1plat] c1player).rect = 99 ∧
    Rect.bottom (physicsStep [c1plat] c1player).rect = c1plat.y ∧
    (physicsStep [c1plat] c1player).on_ground = true := by decide

/-- Witness for `C1_axis_order_amended` at the concrete corner input. -/
theorem C1_axis_order_witness :
    (xMove (gravityStep c1player)).collide [c1plat] .x = xMove (gravityStep c1player) :=
  (C1_axis_order_amended c1player [c1plat] (by decide)).2.2.2 (by decide)

-- ------------------------ C3 ------------------------

set_option linter.unusedVariables false in
/-- C3 (amended): for an entity moving purely in X, after the horizontal
position update and `collide(platforms, 'x')`, the X-velocity is zero
whenever at least one platform was contacted, and the entity no longer
overlaps the *first* contacted platform.  (With two or more overlapping
platforms the entity can be left overlapping a later one: only the first
hit repositions, because the first iteration zeroes `vel.x`.) -/
theorem C3_x_resolution_amended (p : Player) (platforms : List Rect)
    (hvy : p.vely = 0) (hvx : p.velx < 0 ∨ p.velx > 0) :
    (platforms.filter (fun q => colliderect (xMove p).rect q) ≠ [] →
      ((xMove p).collide platforms .x).velx = 0) ∧
    (∀ h0 t, platforms.filter (fun q => colliderect (xMove p).rect q) = h0 :: t →
      colliderect ((xMove p).collide platforms .x).rect h0 = false) ∧
    (platforms.filter (fun q => colliderect (xMove p).rect q) = [] →
      (xMove p).collide platforms .x = xMove p) := by
  refine ⟨?_, ?_, ?_⟩
  · intro hne
    rcases hf : platforms.filter (fun q => colliderect (xMove p).rect q) with _ | ⟨h0, t⟩
    · exact absurd hf hne
    · rw [collide_x_eq_first _ _ _ _ hf]
      exact collideStep_x_velx _ _
  · intro h0 t hh
    rw [collide_x_eq_first _ _ _ _ hh]
    refine collideStep_x_no_overlap _ _ ?_
    show (xMove p).velx < 0 ∨ (xMove p).velx > 0
    exact hvx
  · intro hnil
    rw [Player.collide_def, hnil]
    rfl

/-- The C3 counterexample player: moving right at speed 6, no vertical
velocity. -/
def c3player : Player :=
  { Player.init 0 0 with rect := { x := 64, y := 41, w := 34, h := 46 },
                         velx := 6, vely := 0 }

/-- First platform of the C3 counterexample (hit first). -/
def c3A : Rect := { x := 100, y := 40, w := 48, h := 48 }

/-- Second platform of the C3 counterexample, overlapping the first. -/
def c3B : Rect := { x := 60, y := 40, w := 48, h := 48 }

/-- C3 counterexample: both platforms are contacted after the X move, the
X resolution snaps the player to the first hit's left face and zeroes
`vel.x`, and the player is left still overlapping the second platform of
the set — contradicting "overlaps no platform on the X axis after
`collide(..., 'x')`". -/
theorem C3_overlap_counterexample :
    c3player.vely = 0 ∧ c3player.velx = 6 ∧
    colliderect (xMove c3player).rect c3A = true ∧
    colliderect (xMove c3player).rect c3B = true ∧
    ((xMove c3player).collide [c3A, c3B] .x).velx = 0 ∧
    colliderect ((xMove c3player).collide [c3A, c3B] .x).rect c3B = true := by decide

/-- Witness for `C3_x_resolution_amended` at a concrete input. -/
theorem C3_x_resolution_witness :
    ((xMove c3player).collide [c3A] .x).velx = 0 :=
  (C3_x_resolution_amended c3player [c3A] (by decide) (by decide)).1 (by decide)

-- ------------------------ C4 ------------------------

/-- One downward-rest iteration changes at most `rect.y` and `vel_y`. -/
lemma enemyRestStep_fields (e : Enemy) (q : Rect) :
    (enemyRestStep e q).rect.x = e.rect.x ∧
    (enemyRestStep e q).dir = e.dir ∧
    (enemyRestStep e q).aggro = e.aggro := by
  simp only [enemyRestStep]
  split <;> simp [Rect.setBottom]

/-- The whole vertical-physics block changes at most `rect.y` and
`vel_y`. -/
lemma enemyVertical_fields (platforms : List Rect) (e : Enemy) :
    (enemyVertical platforms e).rect.x = e.rect.x ∧
    (enemyVertical platforms e).dir = e.dir ∧
    (enemyVertical platforms e).aggro = e.aggro := by
  have main : ∀ (l : List Rect) (e : Enemy),
      (l.foldl enemyRestStep e).rect.x = e.rect.x ∧
      (l.foldl enemyRestStep e).dir = e.dir ∧
      (l.foldl enemyRestStep e).aggro = e.aggro := by
    intro l
    induction l with
    | nil => intro e; exact ⟨rfl, rfl, rfl⟩
    | cons q t ih =>
      intro e
      rw [List.foldl_cons]
      obtain ⟨h1, h2, h3⟩ := ih (enemyRestStep e q)
      obtain ⟨g1, g2, g3⟩ := enemyRestStep_fields e q
      exact ⟨h1.trans g1, h2.trans g2, h3.trans g3⟩
  simpa [enemyVertical] using main _ _

/-- C4 (amended): a chaser's aggro flag is sticky — once set it survives
every later update — but both aggro acquisition and the chase movement
live in the `else` branch of the ground/wall probe: in an update whose
probe demands a flip, the enemy only reverses direction and performs no
horizontal chase movement (and does not acquire aggro); the chase drives
the enemy toward the player's horizontal position exactly in the updates
whose probe passes. -/
theorem C4_chaser_amended (inp : EnemyIn) (platforms : List Rect) (prect : Rect) (e : Enemy)
    (hc : e.etype = .chaser) :
    (e.aggro = true → (enemyUpdate inp platforms prect e).1.aggro = true) ∧
    (enemyProbeFlip platforms e = false →
      (e.aggro = true ∨ |prect.centerx - e.rect.centerx| < 400) →
      (enemyUpdate inp platforms prect e).1.aggro = true ∧
      (prect.centerx < e.rect.centerx →
        (enemyUpdate inp platforms prect e).1.rect.x = e.rect.x - pyround e.speed ∧
        (enemyUpdate inp platforms prect e).1.dir = -1) ∧
      (¬ prect.centerx < e.rect.centerx →
        (enemyUpdate inp platforms prect e).1.rect.x = e.rect.x + pyround e.speed ∧
        (enemyUpdate inp platforms prect e).1.dir = 1)) ∧
    (enemyProbeFlip platforms e = true →
      (enemyUpdate inp platforms prect e).1.rect.x = e.rect.x ∧
      (enemyUpdate inp platforms prect e).1.dir = -e.dir ∧
      (enemyUpdate inp platforms prect e).1.aggro = e.aggro) := by
  obtain ⟨er, et, es, ed, ea, est, ev⟩ := e
  subst hc
  by_cases hflip : enemyProbeFlip platforms ⟨er, .chaser, es, ed, ea, est, ev⟩ = true
  · have hb : enemyBehavior inp platforms prect ⟨er, .chaser, es, ed, ea, est, ev⟩ =
        ({ rect := er, etype := .chaser, speed := es, dir := -ed, aggro := ea,
           shoot_timer := est, vel_y := ev }, []) := by
      simp only [enemyBehavior]
      rw [if_pos hflip]
    refine ⟨?_, ?_, ?_⟩
    · intro ha
      show (enemyVertical platforms (enemyBehavior inp platforms prect _).1).aggro = true
      rw [hb]
      rw [(enemyVertical_fields _ _).2.2]
      exact ha
    · intro hnf
      rw [hnf] at hflip
      exact absurd hflip (by simp)
    · intro _
      refine ⟨?_, ?_, ?_⟩
      · show (enemyVertical platforms (enemyBehavior inp platforms prect _).1).rect.x = _
        rw [hb, (enemyVertical_fields _ _).1]
      · show (enemyVertical platforms (enemyBehavior inp platforms prect _).1).dir = _
        rw [hb, (enemyVertical_fields _ _).2.1]
      · show (enemyVertical platforms (enemyBehavior inp platforms prect _).1).aggro = _
        rw [hb, (enemyVertical_fields _ _).2.2]
  · have hflip' : enemyProbeFlip platforms ⟨er, .chaser, es, ed, ea, est, ev⟩ = false :=
      Bool.not_eq_true _ ▸ (by simpa using hflip)
    by_cases hin : |prect.centerx - Rect.centerx er| < 400
    · have hb : enemyBehavior inp platforms prect ⟨er, .chaser, es, ed, ea, est, ev⟩ =
          (if prect.centerx < Rect.centerx er then
            ({ rect := { er with x := er.x - pyround es }, etype := .chaser, speed := es,
               dir := -1, aggro := true, shoot_timer := est, vel_y := ev }, [])
          else
            ({ rect := { er with x := er.x + pyround es }, etype := .chaser, speed := es,
               dir := 1, aggro := true, shoot_timer := est, vel_y := ev }, [])) := by
        simp only [enemyBehavior]
        rw [if_neg (by simp [hflip']), if_pos hin]
        simp
      refine ⟨?_, ?_, ?_⟩
      · intro _
        show (enemyVertical platforms (enemyBehavior inp platforms prect _).1).aggro = true
        rw [hb]
        by_cases hlt : prect.centerx < Rect.centerx er
        · rw [if_pos hlt, (enemyVertical_fields _ _).2.2]
        · rw [if_neg hlt, (enemyVertical_fields _ _).2.2]
      · intro _ _
        refine ⟨?_, ?_, ?_⟩
        · show (enemyVertical platforms (enemyBehavior inp platforms prect _).1).aggro = true
          rw [hb]
          by_cases hlt : prect.centerx < Rect.centerx er
          · rw [if_pos hlt, (enemyVertical_fields _ _).2.2]
          · rw [if_neg hlt, (enemyVertical_fields _ _).2.2]
        · intro hlt
          constructor
          · show (enemyVertical platforms (enemyBehavior inp platforms prect _).1).rect.x = _
            rw [hb, if_pos hlt, (enemyVertical_fields _ _).1]
          · show (enemyVertical platforms (enemyBehavior inp platforms prect _).1).dir = _
            rw [hb, if_pos hlt, (enemyVertical_fields _ _).2.1]
        · intro hge
          constructor
          · show (enemyVertical platforms (enemyBehavior inp platforms prect _).1).rect.x = _
            rw [hb, if_neg hge, (enemyVertical_fields _ _).1]
          · show (enemyVertical platforms (enemyBehavior inp platforms prect _).1).dir = _
            rw [hb, if_neg hge, (enemyVertical_fields _ _).2.1]
      · intro habs
        rw [habs] at hflip
        exact absurd rfl hflip
    · -- not within range: movement only if already aggro
      refine ⟨?_, ?_, ?_⟩
      · intro ha
        have hb : enemyBehavior inp platforms prect ⟨er, .chaser, es, ed, ea, est, ev⟩ =
            (if prect.centerx < Rect.centerx er then
              ({ rect := { er with x := er.x - pyround es }, etype := .chaser, speed := es,
                 dir := -1, aggro := ea, shoot_timer := est, vel_y := ev }, [])
            else
              ({ rect := { er with x := er.x + pyround es }, etype := .chaser, speed := es,
                 dir := 1, aggro := ea, shoot_timer := est, vel_y := ev }, [])) := by
          simp only [enemyBehavior]
          rw [if_neg (by simp [hflip']), if_neg hin]
          have hea : ea = true := ha
          subst hea
          simp
        show (enemyVertical platforms (enemyBehavior inp platforms prect _).1).aggro = true
        rw [hb]
        by_cases hlt : prect.centerx < Rect.centerx er
        · rw [if_pos hlt, (enemyVertical_fields _ _).2.2]
          exact ha
        · rw [if_neg hlt, (enemyVertical_fields _ _).2.2]
          exact ha
      · intro _ hor
        rcases hor with ha | hin'
        · have hb : enemyBehavior inp platforms prect ⟨er, .chaser, es, ed, ea, est, ev⟩ =
              (if prect.centerx < Rect.centerx er then
                ({ rect := { er with x := er.x - pyround es }, etype := .chaser, speed := es,
                   dir := -1, aggro := ea, shoot_timer := est, vel_y := ev }, [])
              else
                ({ rect := { er with x := er.x + pyround es }, etype := .chaser, speed := es,
                   dir := 1, aggro := ea, shoot_timer := est, vel_y := ev }, [])) := by
            simp only [enemyBehavior]
            rw [if_neg (by simp [hflip']), if_neg hin]
            have hea : ea = true := ha
            subst hea
            simp
          refine ⟨?_, ?_, ?_⟩
          · show (enemyVertical platforms (enemyBehavior inp platforms prect _).1).aggro = true
            rw [hb]
            by_cases hlt : prect.centerx < Rect.centerx er
            · rw [if_pos hlt, (enemyVertical_fields _ _).2.2]
              exact ha
            · rw [if_neg hlt, (enemyVertical_fields _ _).2.2]
              exact ha
          · intro hlt
            constructor
            · show (enemyVertical platforms (enemyBehavior inp platforms prect _).1).rect.x = _
              rw [hb, if_pos hlt, (enemyVertical_fields _ _).1]
            · show (enemyVertical platforms (enemyBehavior inp platforms prect _).1).dir = _
              rw [hb, if_pos hlt, (enemyVertical_fields _ _).2.1]
          · intro hge
            constructor
            · show (enemyVertical platforms (enemyBehavior inp platforms prect _).1).rect.x = _
              rw [hb, if_neg hge, (enemyVertical_fields _ _).1]
            · show (enemyVertical platforms (enemyBehavior inp platforms prect _).1).dir = _
              rw [hb, if_neg hge, (enemyVertical_fields _ _).2.1]
        · exact absurd hin' hin
      · intro habs
        rw [habs] at hflip
        exact absurd rfl hflip

/-- The chaser of the C4 counterexample: aggro already acquired, walking
right, with nothing under its probe (it stands over a pit). -/
def c4enemy : Enemy :=
  { rect := { x := 500, y := 100, w := 36, h := 40 }, etype := .chaser,
    speed := ⟨1, 1⟩, dir := 1, aggro := true, shoot_timer := 100, vel_y := 0 }

/-- The same chaser before aggro acquisition. -/
def c4enemyb : Enemy := { c4enemy with aggro := false }

/-- Player rectangle of the C4 counterexample, 101 pixels to the left. -/
def c4prect : Rect := { x := 400, y := 100, w := 34, h := 46 }

/-- Random draws of the C4 counterexample (never consumed). -/
def c4in : EnemyIn := { newShootTimer := 60, aimVel := (0, 0) }

/-- C4 counterexample: with the player well inside the 400-pixel range,
an update whose ground probe fails leaves the aggro chaser's horizontal
position unchanged and flips its direction — the probe flip does occur
and does suppress the chase movement; and a not-yet-aggro chaser does
not acquire aggro in such an update even though the player is within
range. -/
theorem C4_chaser_counterexample :
    c4enemy.aggro = true ∧
    |c4prect.centerx - c4enemy.rect.centerx| < 400 ∧
    enemyProbeFlip [] c4enemy = true ∧
    (enemyUpdate c4in [] c4prect c4enemy).1.rect.x = c4enemy.rect.x ∧
    (enemyUpdate c4in [] c4prect c4enemy).1.dir = -1 ∧
    c4enemyb.aggro = false ∧
    (enemyUpdate c4in [] c4prect c4enemyb).1.aggro = false := by decide

/-- Ground platform for the C4 witness: under the probe, not in the way. -/
def c4plat : Rect := { x := 500, y := 140, w := 100, h := 48 }

/-- The C4 witness chaser: probe satisfied, player within range. -/
def c4chase : Enemy :=
  { rect := { x := 500, y := 100, w := 36, h := 40 }, etype := .chaser,
    speed := ⟨1, 1⟩, dir := 1, aggro := false, shoot_timer := 100, vel_y := 0 }

/-- Witness for `C4_chaser_amended` at a concrete probe-passing input. -/
theorem C4_chaser_witness :
    (enemyUpdate c4in [c4plat] c4prect c4chase).1.aggro = true ∧
    (c4prect.centerx < c4chase.rect.centerx →
      (enemyUpdate c4in [c4plat] c4prect c4chase).1.rect.x
          = c4chase.rect.x - pyround c4chase.speed ∧
      (enemyUpdate c4in [c4plat] c4prect c4chase).1.dir = -1) ∧
    (¬ c4prect.centerx < c4chase.rect.centerx →
      (enemyUpdate c4in [c4plat] c4prect c4chase).1.rect.x
          = c4chase.rect.x + pyround c4chase.speed ∧
      (enemyUpdate c4in [c4plat] c4prect c4chase).1.dir = 1) :=
  (C4_chaser_amended c4in [c4plat] c4prect c4chase rfl).2.1 (by decide) (Or.inr (by decide))

-- ------------------------ C5 ------------------------

/-- The checkpoint list produced by the interaction loop is a pointwise
map: a fresh touched flag is activated, everything else is untouched. -/
lemma checkpointLoop_map (prect : Rect) (cps : List Checkpoint) (rp : ℤ × ℤ) (t : ℤ) :
    (checkpointLoop prect cps rp t).1 =
      cps.map (fun cp => if colliderect prect cp.rect && !cp.activated
                         then { cp with activated := true } else cp) := by
  induction cps generalizing rp t with
  | nil => rfl
  | cons cp rest ih =>
    simp only [checkpointLoop, List.map_cons]
    split
    · rw [ih]
    · rw [ih]

/-- If every checkpoint the player overlaps is already activated, the
whole interaction loop is a no-op: same list, same respawn point, same
transition countdown. -/
lemma checkpointLoop_noop (prect : Rect) (cps : List Checkpoint) (rp : ℤ × ℤ) (t : ℤ)
    (h : ∀ cp ∈ cps, colliderect prect cp.rect = true → cp.activated = true) :
    checkpointLoop prect cps rp t = (cps, rp, t) := by
  induction cps generalizing rp t with
  | nil => rfl
  | cons cp rest ih =>
    have hcond : (colliderect prect cp.rect && !cp.activated) = false := by
      cases hcr : colliderect prect cp.rect
      · simp
      · simp [h cp (List.mem_cons_self cp rest) hcr]
    simp only [checkpointLoop]
    rw [hcond]
    simp only [Bool.false_eq_true, if_false]
    rw [ih rp t (fun c hc hcr => h c (List.mem_cons_of_mem cp hc) hcr)]

/-- C5: checkpoint interaction (lines 580-589) is idempotent and one-way.
(a) the produced list only ever raises `activated`; (b) when every
overlapped checkpoint is already activated (in particular any number of
re-touches of an activated flag), the list, the active respawn point and
the transition countdown are all left unchanged; (c) a first touch of
the (single) checkpoint activates it, adopts its respawn point and arms
the transition countdown in the same interaction step; (d) every
produced checkpoint keeps its rectangle and respawn point, and is
activated exactly when it was activated or was just touched — so
activation never reverts. -/
theorem C5_checkpoint_idempotent (prect : Rect) (cps : List Checkpoint) (rp : ℤ × ℤ) (t : ℤ) :
    ((checkpointLoop prect cps rp t).1 =
      cps.map (fun cp => if colliderect prect cp.rect && !cp.activated
                         then { cp with activated := true } else cp)) ∧
    ((∀ cp ∈ cps, colliderect prect cp.rect = true → cp.activated = true) →
      checkpointLoop prect cps rp t = (cps, rp, t)) ∧
    (∀ cp, cps = [cp] → cp.activated = false → colliderect prect cp.rect = true →
      checkpointLoop prect cps rp t = ([{ cp with activated := true }], cp.respawn_point, 54)) ∧
    (∀ cp2 ∈ (checkpointLoop prect cps rp t).1, ∃ cp0 ∈ cps,
      cp2.rect = cp0.rect ∧ cp2.respawn_point = cp0.respawn_point ∧
      cp2.activated = (cp0.activated || colliderect prect cp0.rect)) := by
  refine ⟨checkpointLoop_map prect cps rp t, checkpointLoop_noop prect cps rp t, ?_, ?_⟩
  · intro cp hcps hact hcr
    subst hcps
    simp only [checkpointLoop]
    rw [hcr, hact]
    rfl
  · intro cp2 hmem
    rw [checkpointLoop_map prect cps rp t] at hmem
    obtain ⟨cp0, h0, hf⟩ := List.mem_map.1 hmem
    refine ⟨cp0, h0, ?_⟩
    subst hf
    cases hcr : colliderect prect cp0.rect
    · simp [hcr]
    · cases hact : cp0.activated
      · simp [hcr, hact]
      · simp [hcr, hact]

/-- Checkpoint objects for the C5 witness. -/
def c5active : Checkpoint :=
  { rect := { x := 100, y := 100, w := 20, h := 28 }, activated := true,
    respawn_point := (110, 100) }

/-- A player rectangle overlapping the C5 checkpoint. -/
def c5prect : Rect := { x := 90, y := 90, w := 34, h := 46 }

/-- Witness for `C5_checkpoint_idempotent`: re-touching the activated
checkpoint changes nothing. -/
theorem C5_checkpoint_witness :
    checkpointLoop c5prect [c5active] (0, 0) 0 = ([c5active], (0, 0), 0) :=
  (C5_checkpoint_idempotent c5prect [c5active] (0, 0) 0).2.1 (by decide)

-- ------------------------ C6 ------------------------

/-- The falling-death check changes only `lives`. -/
lemma fallStep_fields (levelH : ℤ) (p : Player) :
    (fallStep levelH p).1.on_ground = p.on_ground ∧
    (fallStep levelH p).1.double_jump = p.double_jump := by
  simp only [fallStep]
  split <;> exact ⟨rfl, rfl⟩

/-- The coyote block preserves the grounded flag and restores the
double-jump charge whenever the player ended the frame grounded. -/
lemma coyoteStep_fields (p : Player) :
    (coyoteStep p).on_ground = p.on_ground ∧
    ((coyoteStep p).on_ground = true → (coyoteStep p).double_jump = true) := by
  by_cases hp : p.on_ground = true
  · refine ⟨?_, fun _ => ?_⟩
    · simp [coyoteStep, hp]
    · simp [coyoteStep, hp]
  · have hog : coyoteStep p =
        if p.coyote_timer > 0 then { p with coyote_timer := p.coyote_timer - 1 } else p := by
      simp only [coyoteStep]
      rw [if_neg hp]
    have h1 : (coyoteStep p).on_ground = p.on_ground := by
      rw [hog]
      split <;> rfl
    refine ⟨h1, fun habs => ?_⟩
    rw [h1] at habs
    exact absurd habs hp

/-- C6: the double-jump state machine of `Player.update`.  With a
buffered jump request, no grounding on the previous frame and a spent
coyote timer: an available charge fires at `jump_power × DOUBLE_JUMP_MULT`
(a sub-1.0 multiplier) and is consumed, clearing the buffer; a consumed
charge makes the request a no-op on the whole jump block; and the charge
is restored exactly on ending an update grounded, so it can fire at most
once between consecutive grounded states. -/
theorem C6_double_jump :
    (∀ p : Player, 0 < p.jump_buffer → p.coyote_timer = 0 → p.double_jump = true →
      (jumpStep false p).vely = p.jump_power * DOUBLE_JUMP_MULT ∧
      (jumpStep false p).double_jump = false ∧
      (jumpStep false p).jump_buffer = 0) ∧
    (∀ p : Player, 0 < p.jump_buffer → p.coyote_timer = 0 → p.double_jump = false →
      jumpStep false p = p) ∧
    (∀ (inp : PlayerIn) (platforms : List Rect) (levelH : ℤ) (bullets : List Bullet)
       (p : Player),
      (playerUpdate inp platforms levelH bullets p).1.on_ground = true →
      (playerUpdate inp platforms levelH bullets p).1.double_jump = true) := by
  refine ⟨?_, ?_, ?_⟩
  · intro p hb hc hdj
    have hcond : ¬ (false || decide (p.coyote_timer > 0)) = true := by
      simp [hc]
    simp only [jumpStep]
    rw [if_pos (by simpa using hb), if_neg hcond, if_pos hdj]
    exact ⟨rfl, rfl, rfl⟩
  · intro p hb hc hdj
    have hcond : ¬ (false || decide (p.coyote_timer > 0)) = true := by
      simp [hc]
    simp only [jumpStep]
    rw [if_pos (by simpa using hb), if_neg hcond, if_neg (by simp [hdj])]
  · intro inp platforms levelH bullets p
    have main : ∀ q : Player,
        (fallStep levelH (coyoteStep q)).1.on_ground = true →
        (fallStep levelH (coyoteStep q)).1.double_jump = true := by
      intro q h
      rw [(fallStep_fields levelH (coyoteStep q)).1] at h
      rw [(fallStep_fields levelH (coyoteStep q)).2]
      exact (coyoteStep_fields q).2 h
    exact main _

/-- Airborne player with a buffered jump and spent coyote timer, for the
C6 witness. -/
def c6p : Player :=
  { Player.init 100 100 with jump_buffer := 8, coyote_timer := 0,
                             double_jump := true, on_ground := false }

/-- Witness for `C6_double_jump` at a concrete input. -/
theorem C6_double_jump_witness :
    (jumpStep false c6p).vely = c6p.jump_power * DOUBLE_JUMP_MULT ∧
    (jumpStep false c6p).double_jump = false ∧
    (jumpStep false c6p).jump_buffer = 0 :=
  C6_double_jump.1 c6p (by decide) (by decide) (by decide)

-- ------------------------ C8 ------------------------

/-- A frame with a non-empty enemy or collectible set resets the clear
counter (and leaves the countdown alone). -/
lemma clearSeg_nonempty (s : GState) (h : ¬(s.enemies.length = 0 ∧ s.collectibles.length = 0)) :
    clearSeg s = { s with level_clear_cool := 0 } := by
  simp only [clearSeg]
  rw [if_neg (by tauto)]
  rw [if_pos h]

/-- A cleared frame below the debounce threshold only increments the
counter. -/
lemma clearSeg_empty_low (s : GState) (he : s.enemies = []) (hc : s.collectibles = [])
    (ht : s.level_transition_timer = 0) (hlow : s.level_clear_cool + 1 ≤ 72) :
    clearSeg s = { s with level_clear_cool := s.level_clear_cool + 1 } := by
  simp only [clearSeg]
  rw [if_pos ⟨by simp [he], by simp [hc], ht⟩]
  rw [if_neg (by omega)]

/-- A cleared frame crossing the debounce threshold arms the transition
countdown and resets the counter. -/
lemma clearSeg_empty_hit (s : GState) (he : s.enemies = []) (hc : s.collectibles = [])
    (ht : s.level_transition_timer = 0) (hhi : 72 < s.level_clear_cool + 1) :
    clearSeg s = { s with level_transition_timer := 54, level_clear_cool := 0 } := by
  simp only [clearSeg]
  rw [if_pos ⟨by simp [he], by simp [hc], ht⟩]
  rw [if_pos (by omega)]

/-- C8: the level-clear fallback (lines 591-599) is a debounce.  A frame
in which either set is non-empty resets the accumulated counter to zero
without touching the countdown; a cleared frame increments it, arming
the transition countdown (at 54 frames) only when the counter exceeds
`FPS*1.2 = 72`; and starting from a zero counter, 72 consecutive cleared
frames still leave the countdown unarmed while the 73rd arms it — so a
momentarily-empty frame never triggers a transition. -/
theorem C8_clear_debounce :
    (∀ s : GState, (s.enemies ≠ [] ∨ s.collectibles ≠ []) →
      (clearSeg s).level_clear_cool = 0 ∧
      (clearSeg s).level_transition_timer = s.level_transition_timer) ∧
    (∀ s : GState, s.enemies = [] → s.collectibles = [] → s.level_transition_timer = 0 →
      s.level_clear_cool + 1 ≤ 72 →
      (clearSeg s).level_transition_timer = 0 ∧
      (clearSeg s).level_clear_cool = s.level_clear_cool + 1) ∧
    (∀ s : GState, s.enemies = [] → s.collectibles = [] → s.level_transition_timer = 0 →
      72 < s.level_clear_cool + 1 →
      (clearSeg s).level_transition_timer = 54 ∧ (clearSeg s).level_clear_cool = 0) ∧
    (∀ s : GState, s.enemies = [] → s.collectibles = [] → s.level_transition_timer = 0 →
      s.level_clear_cool = 0 →
      (∀ k : ℕ, k ≤ 72 → (clearSeg^[k] s).level_transition_timer = 0 ∧
        (clearSeg^[k] s).level_clear_cool = (k : ℤ)) ∧
      (clearSeg^[73] s).level_transition_timer = 54) := by
  refine ⟨?_, ?_, ?_, ?_⟩
  · intro s h
    have h' : ¬(s.enemies.length = 0 ∧ s.collectibles.length = 0) := by
      rcases h with h | h
      · exact fun hc => h (List.length_eq_zero.mp hc.1)
      · exact fun hc => h (List.length_eq_zero.mp hc.2)
    rw [clearSeg_nonempty s h']
    exact ⟨rfl, rfl⟩
  · intro s he hc ht hlow
    rw [clearSeg_empty_low s he hc ht hlow]
    exact ⟨ht, rfl⟩
  · intro s he hc ht hhi
    rw [clearSeg_empty_hit s he hc ht hhi]
    exact ⟨rfl, rfl⟩
  · intro s he hc ht h0
    have aux : ∀ k : ℕ, k ≤ 72 →
        (clearSeg^[k] s).enemies = [] ∧ (clearSeg^[k] s).collectibles = [] ∧
        (clearSeg^[k] s).level_transition_timer = 0 ∧
        (clearSeg^[k] s).level_clear_cool = (k : ℤ) := by
      intro k
      induction k with
      | zero => exact fun _ => ⟨he, hc, ht, by simpa using h0⟩
      | succ n ih =>
        intro hn
        obtain ⟨e1, e2, e3, e4⟩ := ih (by omega)
        rw [Function.iterate_succ_apply']
        have hlow : (clearSeg^[n] s).level_clear_cool + 1 ≤ 72 := by
          rw [e4]
          have : (n : ℤ) ≤ 71 := by exact_mod_cast Nat.lt_succ_iff.mp (by omega)
          omega
        rw [clearSeg_empty_low _ e1 e2 e3 hlow]
        refine ⟨e1, e2, e3, ?_⟩
        show (clearSeg^[n] s).level_clear_cool + 1 = ((n + 1 : ℕ) : ℤ)
        rw [e4]
        push_cast
        ring
    constructor
    · exact fun k hk => ⟨(aux k hk).2.2.1, (aux k hk).2.2.2⟩
    · obtain ⟨e1, e2, e3, e4⟩ := aux 72 le_rfl
      have h73 : (clearSeg^[73] s) = clearSeg (clearSeg^[72] s) := by
        rw [show (73 : ℕ) = 72 + 1 by norm_num, Function.iterate_succ_apply']
      rw [h73, clearSeg_empty_hit _ e1 e2 e3 (by rw [e4]; omega)]

/-- An empty baseline game state used by several witnesses. -/
def gs0 : GState :=
  { highscore := 0, level_num := 1, paused := false, game_over := false, win := false
    level_clear_cool := 0, level_transition_timer := 0
    respawn_point := (96, 288), player_spawn := (96, 288)
    player := Player.init 96 288
    platforms := [], enemies := [], collectibles := [], checkpoints := []
    bullets := [], enemy_bullets := []
    levelW := 2400, levelH := 480
    camera := { x := 0, y := 0, width := 2400, height := 480 } }

set_option maxRecDepth 4000 in
/-- Witness for `C8_clear_debounce` at a concrete cleared state. -/
theorem C8_clear_witness :
    (clearSeg gs0).level_transition_timer = 0 ∧
    (clearSeg gs0).level_clear_cool = gs0.level_clear_cool + 1 :=
  C8_clear_debounce.2.1 gs0 (by decide) (by decide) (by decide) (by decide)

-- ------------------------ C9 ------------------------

/-- The "rightmost, then higher" preorder used by the checkpoint
placement: `a` is no better a pillar than `c`. -/
def rightKey (a c : Rect) : Prop := a.x < c.x ∨ (a.x = c.x ∧ c.y ≤ a.y)

lemma rightKey_refl (a : Rect) : rightKey a a := Or.inr ⟨rfl, le_rfl⟩

lemma rightKey_trans {a b c : Rect} (h1 : rightKey a b) (h2 : rightKey b c) :
    rightKey a c := by
  rcases h1 with h1 | ⟨h1a, h1b⟩ <;> rcases h2 with h2 | ⟨h2a, h2b⟩
  · left; omega
  · left; omega
  · left; omega
  · right; omega

/-- `max(platforms, key=lambda p: (p.rect.left, -p.rect.top))` picks an
element of the list that is at least as far right as every other, with
ties broken toward the smaller `top` (the higher platform). -/
lemma rightmostPlatform_spec (p : Rect) (l : List Rect) :
    rightmostPlatform p l ∈ p :: l ∧
    ∀ q ∈ p :: l, rightKey q (rightmostPlatform p l) := by
  induction l generalizing p with
  | nil =>
    refine ⟨List.mem_singleton.mpr rfl, ?_⟩
    intro q hq
    rw [List.mem_singleton] at hq
    subst hq
    exact rightKey_refl q
  | cons r t ih =>
    have hstep : rightmostPlatform p (r :: t) =
        rightmostPlatform (if p.x < r.x ∨ (p.x = r.x ∧ r.y < p.y) then r else p) t := rfl
    by_cases hc : p.x < r.x ∨ (p.x = r.x ∧ r.y < p.y)
    · have hpr : rightKey p r := by
        rcases hc with hc | ⟨hc1, hc2⟩
        · exact Or.inl hc
        · exact Or.inr ⟨hc1, hc2.le⟩
      obtain ⟨hmem, hmax⟩ := ih r
      rw [hstep, if_pos hc]
      refine ⟨?_, ?_⟩
      · rcases List.mem_cons.1 hmem with h | h
        · rw [h]
          exact List.mem_cons_of_mem p (List.mem_cons_self r t)
        · exact List.mem_cons_of_mem p (List.mem_cons_of_mem r h)
      · intro q hq
        rcases List.mem_cons.1 hq with rfl | hq'
        · exact rightKey_trans hpr (hmax r (List.mem_cons_self r t))
        · exact hmax q hq'
    · have hrp : rightKey r p := by
        push_neg at hc
        rcases lt_trichotomy r.x p.x with h | h | h
        · exact Or.inl h
        · exact Or.inr ⟨h, by have := hc.2 h.symm; omega⟩
        · exact absurd h (by omega)
      obtain ⟨hmem, hmax⟩ := ih p
      rw [hstep, if_neg hc]
      refine ⟨?_, ?_⟩
      · rcases List.mem_cons.1 hmem with h | h
        · rw [h]
          exact List.mem_cons_self p (r :: t)
        · exact List.mem_cons_of_mem p (List.mem_cons_of_mem r h)
      · intro q hq
        rcases List.mem_cons.1 hq with rfl | hq'
        · exact hmax q (List.mem_cons_self q t)
        · rcases List.mem_cons.1 hq' with rfl | hq''
          · exact rightKey_trans hrp (hmax p (List.mem_cons_self p t))
          · exact hmax q (List.mem_cons_of_mem p hq'')

/-- The checkpoint set of a built level, as a function of its platform
list. -/
lemma buildLevel_checkpoints (tileRnd : ℕ → SpawnRnd) (template : List String) :
    (buildLevelFromTemplate tileRnd template).checkpoints =
      match (buildLevelFromTemplate tileRnd template).platforms with
      | [] => []
      | p :: rest => [Checkpoint.init (rightmostPlatform p rest)] := rfl

/-- C9: for every template with at least one platform tile the builder
creates exactly one checkpoint, on a platform that is rightmost (greatest
`left`, ties toward the higher platform); a platform-free template yields
no checkpoint; and every created checkpoint starts deactivated, sits with
its mid-bottom on the top edge of its platform, and carries the top
centre of its own rectangle as respawn point. -/
theorem C9_checkpoint_build (tileRnd : ℕ → SpawnRnd) (template : List String) :
    ((buildLevelFromTemplate tileRnd template).platforms ≠ [] →
      ∃ plat ∈ (buildLevelFromTemplate tileRnd template).platforms,
        (∀ q ∈ (buildLevelFromTemplate tileRnd template).platforms, rightKey q plat) ∧
        (buildLevelFromTemplate tileRnd template).checkpoints = [Checkpoint.init plat]) ∧
    ((buildLevelFromTemplate tileRnd template).platforms = [] →
      (buildLevelFromTemplate tileRnd template).checkpoints = []) ∧
    (∀ plat : Rect,
      (Checkpoint.init plat).activated = false ∧
      (Checkpoint.init plat).rect =
        { x := plat.x + plat.w / 2 - 10, y := plat.y - 28, w := 20, h := 28 } ∧
      (Checkpoint.init plat).respawn_point = (plat.x + plat.w / 2, plat.y - 28)) := by
  refine ⟨?_, ?_, ?_⟩
  · intro hne
    rcases hpl : (buildLevelFromTemplate tileRnd template).platforms with _ | ⟨p, rest⟩
    · exact absurd hpl hne
    · obtain ⟨hmem, hmax⟩ := rightmostPlatform_spec p rest
      refine ⟨rightmostPlatform p rest, hmem, hmax, ?_⟩
      rw [buildLevel_checkpoints, hpl]
  · intro hnil
    rw [buildLevel_checkpoints, hnil]
  · intro plat
    refine ⟨rfl, rfl, ?_⟩
    show ((Checkpoint.init plat).rect.centerx, (Checkpoint.init plat).rect.y) = _
    have : (Checkpoint.init plat).rect.centerx = plat.x + plat.w / 2 := by
      show plat.x + plat.w / 2 - 20 / 2 + 20 / 2 = plat.x + plat.w / 2
      omega
    rw [this]
    rfl

/-- Fixed random draws for the C9 witness. -/
def c9rnd : ℕ → SpawnRnd :=
  fun _ => { etype := .patrol, speed := ⟨1, 1⟩, edir := 1, stimer := 60 }

/-- Witness for `C9_checkpoint_build`: a one-tile template. -/
theorem C9_checkpoint_witness :
    ∃ plat ∈ (buildLevelFromTemplate c9rnd ["#"]).platforms,
      (∀ q ∈ (buildLevelFromTemplate c9rnd ["#"]).platforms, rightKey q plat) ∧
      (buildLevelFromTemplate c9rnd ["#"]).checkpoints = [Checkpoint.init plat] :=
  (C9_checkpoint_build c9rnd ["#"]).1 (by decide)

-- ------------------------ C10 ------------------------

/-- The P-key pause toggle touches only `paused`. -/
lemma pauseToggle_fields (k : GKey) (s : GState) :
    (pauseToggle k s).player = s.player ∧ (pauseToggle k s).highscore = s.highscore := by
  simp only [pauseToggle]
  split <;> exact ⟨rfl, rfl⟩

/-- Any non-empty list of `save_json` writes comes from the QUIT branch
with a strictly improved score, and is exactly the one record holding the
current run's score. -/
lemma processEvents_quit_writes (s : GState) (evs : List GEvent)
    (h : (processEvents s evs).1 ≠ []) :
    (processEvents s evs).2.1 = .exitGame ∧ s.player.score > s.highscore ∧
    (processEvents s evs).1 = [s.player.score] := by
  induction evs generalizing s with
  | nil => exact absurd rfl h
  | cons e rest ih =>
    cases e with
    | quit =>
      by_cases hgt : s.player.score > s.highscore
      · refine ⟨rfl, hgt, ?_⟩
        show (if s.player.score > s.highscore then [s.player.score] else []) = _
        rw [if_pos hgt]
      · refine absurd ?_ h
        show (if s.player.score > s.highscore then [s.player.score] else []) = []
        rw [if_neg hgt]
    | keydown k =>
      by_cases hk : k = GKey.kr
      · subst hk
        refine absurd ?_ h
        show (processEvents s (.keydown .kr :: rest)).1 = []
        simp [processEvents]
      · have hstep : processEvents s (.keydown k :: rest) =
            processEvents (pauseToggle k s) rest := by
          simp only [processEvents]
          rw [if_neg hk]
        rw [hstep] at h ⊢
        obtain ⟨o1, o2, o3⟩ := ih (pauseToggle k s) h
        obtain ⟨hp, hh⟩ := pauseToggle_fields k s
        rw [hp, hh] at o2
        rw [hp] at o3
        exact ⟨o1, o2, o3⟩

/-- An event pass that does not end in QUIT writes nothing. -/
lemma processEvents_writes_empty (s : GState) (evs : List GEvent)
    (h : (processEvents s evs).2.1 ≠ .exitGame) : (processEvents s evs).1 = [] := by
  by_cases hw : (processEvents s evs).1 = []
  · exact hw
  · exact absurd (processEvents_quit_writes s evs hw).1 h

/-- C10: the high-score record is written only while handling a QUIT
event and only when the run's score strictly exceeds the loaded
highscore (and then it is that score, written once); an R keydown makes
the frame return the restart signal immediately, writing nothing; and a
whole frame performs exactly the writes of its event pass, so no other
part of a frame ever saves. -/
theorem C10_save_on_quit :
    (∀ (s : GState) (evs : List GEvent),
      (processEvents s evs).1 ≠ [] →
      (processEvents s evs).2.1 = .exitGame ∧ s.player.score > s.highscore ∧
      (processEvents s evs).1 = [s.player.score]) ∧
    (∀ (s : GState) (rest : List GEvent),
      processEvents s (.keydown .kr :: rest) = ([], .restart, s)) ∧
    (∀ (s : GState) (evs : List GEvent),
      (processEvents s evs).2.1 = .restart → (processEvents s evs).1 = []) ∧
    (∀ (inp : FrameIn) (s : GState),
      (frameStep inp s).writes = (processEvents s inp.events).1) := by
  refine ⟨processEvents_quit_writes, ?_, ?_, ?_⟩
  · intro s rest
    simp [processEvents]
  · intro s evs h
    exact processEvents_writes_empty s evs (by rw [h]; simp)
  · intro inp s
    rcases hpe : processEvents s inp.events with ⟨w, o, s2⟩
    unfold frameStep
    rw [hpe]
    cases o with
    | exitGame => rfl
    | restart =>
      have hw := processEvents_writes_empty s inp.events (by rw [hpe]; simp)
      rw [hpe] at hw
      show ([] : List ℤ) = w
      exact hw.symm
    | next =>
      have hw := processEvents_writes_empty s inp.events (by rw [hpe]; simp)
      rw [hpe] at hw
      have hwe : w = [] := hw
      subst hwe
      dsimp only
      split <;> rfl

/-- Witness for `C10_save_on_quit`: an R press returns the restart
signal with no write. -/
theorem C10_save_witness :
    processEvents gs0 [.keydown .kr] = ([], .restart, gs0) :=
  C10_save_on_quit.2.1 gs0 []

-- ------------------------ C7 ------------------------

/-- C7: when the transition countdown reaches zero the stage index is
incremented; past `MAX_LEVEL` the state becomes Win with no level load
(all level data, the player and the camera untouched); otherwise the
level for the new index is built (from the new index's template, with
its difficulty settings), the camera is rebuilt at the new level's pixel
dimensions, the player is repositioned at the new spawn — which also
becomes the active respawn point — with velocity zeroed, lives floored
at 1, and the score grows by `500 ×` the new stage number. -/
theorem C7_level_advance (rnd : LoadRnd) (s : GState)
    (ht : s.level_transition_timer = 1) :
    (frozenStep rnd s).level_num = s.level_num + 1 ∧
    (s.level_num + 1 > MAX_LEVEL →
      (frozenStep rnd s).win = true ∧
      (frozenStep rnd s).platforms = s.platforms ∧
      (frozenStep rnd s).enemies = s.enemies ∧
      (frozenStep rnd s).collectibles = s.collectibles ∧
      (frozenStep rnd s).checkpoints = s.checkpoints ∧
      (frozenStep rnd s).player = s.player ∧
      (frozenStep rnd s).camera = s.camera) ∧
    (¬ s.level_num + 1 > MAX_LEVEL →
      (frozenStep rnd s).win = s.win ∧
      (frozenStep rnd s).platforms = (loadLevel rnd (s.level_num + 1)).1.platforms ∧
      (frozenStep rnd s).enemies = (loadLevel rnd (s.level_num + 1)).1.enemies ∧
      (frozenStep rnd s).collectibles = (loadLevel rnd (s.level_num + 1)).1.collectibles ∧
      (frozenStep rnd s).checkpoints = (loadLevel rnd (s.level_num + 1)).1.checkpoints ∧
      (frozenStep rnd s).camera =
        { x := 0, y := 0, width := (loadLevel rnd (s.level_num + 1)).1.width,
          height := (loadLevel rnd (s.level_num + 1)).1.height } ∧
      (frozenStep rnd s).levelW = (loadLevel rnd (s.level_num + 1)).1.width ∧
      (frozenStep rnd s).levelH = (loadLevel rnd (s.level_num + 1)).1.height ∧
      (frozenStep rnd s).respawn_point = (loadLevel rnd (s.level_num + 1)).1.spawn ∧
      (frozenStep rnd s).player_spawn = (loadLevel rnd (s.level_num + 1)).1.spawn ∧
      (frozenStep rnd s).player.rect =
        Rect.ofMidbottom 34 46 (loadLevel rnd (s.level_num + 1)).1.spawn.1
          (loadLevel rnd (s.level_num + 1)).1.spawn.2 ∧
      (frozenStep rnd s).player.velx = 0 ∧
      (frozenStep rnd s).player.vely = 0 ∧
      (frozenStep rnd s).player.lives = max 1 s.player.lives ∧
      (frozenStep rnd s).player.score = s.player.score + 500 * (s.level_num + 1)) ∧
    (∀ m : ℤ, (loadLevel rnd m).2 = difficultyFor m ∧
      (loadLevel rnd m).1.platforms =
        (buildLevelFromTemplate rnd.tileRnd
          (LEVEL_TEMPLATES.getD ((m - 1) % 3).toNat [])).platforms) := by
  have hfz : frozenStep rnd s = advanceLevel rnd { s with level_transition_timer := 0 } := by
    simp only [frozenStep]
    rw [ht]
    norm_num
  by_cases hn : s.level_num + 1 > MAX_LEVEL
  · have hadv : advanceLevel rnd { s with level_transition_timer := 0 } =
        { s with level_transition_timer := 0,
                 level_num := s.level_num + 1, win := true } := by
      simp only [advanceLevel]
      rw [if_pos hn]
    rw [hfz, hadv]
    refine ⟨rfl, ?_, ?_, ?_⟩
    · intro _
      exact ⟨rfl, rfl, rfl, rfl, rfl, rfl, rfl⟩
    · intro habs
      exact absurd hn habs
    · intro m
      exact ⟨rfl, rfl⟩
  · have hadv : advanceLevel rnd { s with level_transition_timer := 0 } =
        (let ld := (loadLevel rnd (s.level_num + 1)).1
         { s with
            level_transition_timer := 0
            level_num := s.level_num + 1
            levelW := ld.width
            levelH := ld.height
            camera := { x := 0, y := 0, width := ld.width, height := ld.height }
            platforms := ld.platforms
            enemies := ld.enemies
            collectibles := ld.collectibles
            checkpoints := ld.checkpoints
            player_spawn := ld.spawn
            respawn_point := ld.spawn
            player := { s.player.respawn ld.spawn with
                          lives := max 1 s.player.lives
                          score := s.player.score + 500 * (s.level_num + 1) } }) := by
      simp only [advanceLevel]
      rw [if_neg hn]
    rw [hfz, hadv]
    refine ⟨rfl, ?_, ?_, ?_⟩
    · intro habs
      exact absurd habs hn
    · intro _
      exact ⟨rfl, rfl, rfl, rfl, rfl, rfl, rfl, rfl, rfl, rfl, rfl, rfl, rfl, rfl, rfl⟩
    · intro m
      exact ⟨rfl, rfl⟩

/-- Random draws for the C7 witness. -/
def c7rnd : LoadRnd :=
  { tileRnd := c9rnd
    extraRnd := fun _ => { gx := 2, gy := 2, chaser := false, edir := 1, stimer := 60 } }

/-- Last-stage state for the C7 witness: the countdown is at its final
frame and the stage index is `MAX_LEVEL`. -/
def c7s : GState := { gs0 with level_num := 6, level_transition_timer := 1 }

set_option maxRecDepth 4000 in
/-- Witness for `C7_level_advance`: completing the countdown past the
last stage enters Win and loads nothing. -/
theorem C7_level_advance_witness :
    (frozenStep c7rnd c7s).win = true ∧
    (frozenStep c7rnd c7s).platforms = c7s.platforms ∧
    (frozenStep c7rnd c7s).enemies = c7s.enemies ∧
    (frozenStep c7rnd c7s).collectibles = c7s.collectibles ∧
    (frozenStep c7rnd c7s).checkpoints = c7s.checkpoints ∧
    (frozenStep c7rnd c7s).player = c7s.player ∧
    (frozenStep c7rnd c7s).camera = c7s.camera :=
  (C7_level_advance c7rnd c7s (by decide)).2.1 (by decide)

-- ------------------------ C2 ------------------------

/-- Safety relation of C2: whenever lives are exhausted, the game-over
flag is up (within the same frame). -/
def livesSafe (s : GState) : Prop := s.player.lives ≤ 0 → s.game_over = true

/-- `livesSafe` lifted to a frame outcome (quit and restart outcomes end
the session). -/
def frameResultSafe : FrameResult → Prop
  | .next s => livesSafe s
  | _ => True

/-- A collision-resolution iteration never touches `lives`. -/
lemma collideStep_lives (dir : Axis) (st : Player) (q : Rect) :
    (collideStep dir st q).lives = st.lives := by
  cases dir <;> simp only [collideStep] <;> repeat' split
  all_goals rfl

/-- A whole collision pass never touches `lives`. -/
lemma foldl_collideStep_lives (dir : Axis) (l : List Rect) (st : Player) :
    (l.foldl (collideStep dir) st).lives = st.lives := by
  induction l generalizing st with
  | nil => rfl
  | cons q t ih => rw [List.foldl_cons, ih, collideStep_lives]

/-- No step of `Player.update` before the falling-death check touches
`lives`. -/
lemma playerUpdate_pre_lives (inp : PlayerIn) (platforms : List Rect) (p : Player) :
    (coyoteStep (physicsStep platforms (bufferDecayStep (jumpStep p.on_ground
      (dashStep inp (moveKeysStep inp { p with on_ground := false })))))).lives
      = p.lives := by
  have hmk : ∀ q : Player, (moveKeysStep inp q).lives = q.lives := by
    intro q
    simp only [moveKeysStep]
    repeat' split
    all_goals rfl
  have hds : ∀ q : Player, (dashStep inp q).lives = q.lives := by
    intro q
    simp only [dashStep]
    repeat' split
    all_goals rfl
  have hjs : ∀ (b : Bool) (q : Player), (jumpStep b q).lives = q.lives := by
    intro b q
    simp only [jumpStep]
    repeat' split
    all_goals rfl
  have hbd : ∀ q : Player, (bufferDecayStep q).lives = q.lives := by
    intro q
    simp only [bufferDecayStep]
    split
    all_goals rfl
  have hph : ∀ (l : List Rect) (q : Player), (physicsStep l q).lives = q.lives := by
    intro l q
    simp only [physicsStep, Player.collide_def]
    rw [foldl_collideStep_lives]
    show (yMove ((xMove (gravityStep q)).collide l .x)).lives = q.lives
    show ((xMove (gravityStep q)).collide l .x).lives = q.lives
    rw [Player.collide_def, foldl_collideStep_lives]
    rfl
  have hcs : ∀ q : Player, (coyoteStep q).lives = q.lives := by
    intro q
    simp only [coyoteStep]
    repeat' split
    all_goals rfl
  rw [hcs, hph, hbd, hjs, hds, hmk]

/-- The falling-death check: `lives` is decremented exactly on the
`'died'` outcome. -/
lemma fallStep_lives (levelH : ℤ) (p : Player) :
    ((fallStep levelH p).2 = false → (fallStep levelH p).1.lives = p.lives) ∧
    ((fallStep levelH p).2 = true → (fallStep levelH p).1.lives = p.lives - 1) := by
  simp only [fallStep]
  split
  · exact ⟨fun habs => by simp at habs, fun _ => rfl⟩
  · exact ⟨fun _ => rfl, fun habs => by simp at habs⟩

/-- `Player.update` decrements `lives` by one on the `'died'` outcome and
leaves it unchanged otherwise. -/
lemma playerUpdate_lives (inp : PlayerIn) (platforms : List Rect) (levelH : ℤ)
    (bullets : List Bullet) (p : Player) :
    ((playerUpdate inp platforms levelH bullets p).2.2 = false →
      (playerUpdate inp platforms levelH bullets p).1.lives = p.lives) ∧
    ((playerUpdate inp platforms levelH bullets p).2.2 = true →
      (playerUpdate inp platforms levelH bullets p).1.lives = p.lives - 1) := by
  have hpre := playerUpdate_pre_lives inp platforms p
  have hf := fallStep_lives levelH (coyoteStep (physicsStep platforms (bufferDecayStep
    (jumpStep p.on_ground (dashStep inp (moveKeysStep inp { p with on_ground := false }))))))
  constructor
  · intro hd
    have := hf.1 hd
    rw [hpre] at this
    exact this
  · intro hd
    have := hf.2 hd
    rw [hpre] at this
    exact this

/-- `Player.respawn` never touches `lives`. -/
lemma respawn_lives (p : Player) (pt : ℤ × ℤ) : (p.respawn pt).lives = p.lives := rfl

/-- Buffering jump events never touches `lives`. -/
lemma handleJumpEvents_lives (evs : List GEvent) (p : Player) :
    (handleJumpEvents evs p).lives = p.lives := by
  simp only [handleJumpEvents]
  split
  all_goals rfl

/-- The player segment preserves the C2 safety relation: a fall-death
that exhausts lives raises the game-over flag in the same segment. -/
lemma playerSeg_LG (inp : FrameIn) (s : GState) (h : livesSafe s) :
    livesSafe (playerSeg inp s) := by
  simp only [playerSeg, livesSafe]
  split
  · -- 'died' outcome: the branch recomputes game_over from the new lives
    intro hl
    rw [if_pos hl]
  · -- no death: lives unchanged, game_over unchanged
    next hnd =>
      intro hl
      apply h
      have hval := (playerUpdate_lives _ s.platforms s.levelH s.bullets
        (handleJumpEvents inp.events s.player)).1 (by simpa using hnd)
      rw [hval, handleJumpEvents_lives] at hl
      exact hl

/-- The enemy-projectile damage loop preserves the C2 safety relation:
each decrement is followed by its own game-over check. -/
lemma enemyBulletHits_LG (prect : Rect) (bs : List Bullet) (lives : ℤ) (go : Bool)
    (h : lives ≤ 0 → go = true) :
    (enemyBulletHits prect bs lives go).2.1 ≤ 0 →
      (enemyBulletHits prect bs lives go).2.2 = true := by
  induction bs generalizing lives go with
  | nil => exact h
  | cons b t ih =>
    simp only [enemyBulletHits]
    split
    · apply ih
      intro hl
      rw [if_pos hl]
    · exact ih lives go h

/-- Segment form of the previous lemma. -/
lemma enemyBulletHitsSeg_LG (s : GState) (h : livesSafe s) :
    livesSafe (enemyBulletHitsSeg s) := by
  intro hl
  exact enemyBulletHits_LG s.player.rect s.enemy_bullets s.player.lives s.game_over h hl

/-- The enemy-contact branch preserves the C2 safety relation. -/
lemma touchSeg_LG (s : GState) (h : livesSafe s) : livesSafe (touchSeg s) := by
  simp only [touchSeg, livesSafe]
  split
  · intro hl
    rw [if_pos hl]
  · exact h

/-- The level-clear segment touches neither lives nor the game-over
flag. -/
lemma clearSeg_LG (s : GState) (h : livesSafe s) : livesSafe (clearSeg s) := by
  simp only [clearSeg, livesSafe]
  repeat' split
  all_goals exact h

/-- Segments that change neither lives nor the game-over flag preserve
the C2 safety relation outright. -/
lemma bulletsSeg_LG (s : GState) (h : livesSafe s) : livesSafe (bulletsSeg s) := h

lemma enemiesSeg_LG (inp : FrameIn) (s : GState) (h : livesSafe s) :
    livesSafe (enemiesSeg inp s) := h

lemma enemyBulletsSeg_LG (s : GState) (h : livesSafe s) : livesSafe (enemyBulletsSeg s) := h

lemma bulletHitsSeg_LG (s : GState) (h : livesSafe s) : livesSafe (bulletHitsSeg s) := h

lemma collectSeg_LG (s : GState) (h : livesSafe s) : livesSafe (collectSeg s) := h

lemma checkpointSeg_LG (s : GState) (h : livesSafe s) : livesSafe (checkpointSeg s) := h

lemma cameraSeg_LG (s : GState) (h : livesSafe s) : livesSafe (cameraSeg s) := h

/-- A whole simulated frame preserves the C2 safety relation. -/
lemma simStep_LG (inp : FrameIn) (s : GState) (h : livesSafe s) :
    livesSafe (simStep inp s) :=
  cameraSeg_LG _ (clearSeg_LG _ (checkpointSeg_LG _ (collectSeg_LG _ (touchSeg_LG _
    (enemyBulletHitsSeg_LG _ (bulletHitsSeg_LG _ (enemyBulletsSeg_LG _
      (enemiesSeg_LG inp _ (bulletsSeg_LG _ (playerSeg_LG inp s h))))))))))

/-- The frozen branch preserves the C2 safety relation (a level advance
floors lives at 1, making it vacuous). -/
lemma frozenStep_LG (rnd : LoadRnd) (s : GState) (h : livesSafe s) :
    livesSafe (frozenStep rnd s) := by
  simp only [frozenStep]
  split
  · split
    · -- advance
      simp only [advanceLevel]
      split
      · exact h
      · intro hl
        exfalso
        have hmax : (1 : ℤ) ≤ max 1 s.player.lives := le_max_left _ _
        have : max 1 s.player.lives ≤ 0 := hl
        omega
    · exact h
  · exact h

/-- The event pass changes neither the player nor the game-over flag. -/
lemma processEvents_state (s : GState) (evs : List GEvent) :
    (processEvents s evs).2.2.player = s.player ∧
    (processEvents s evs).2.2.game_over = s.game_over := by
  induction evs generalizing s with
  | nil => exact ⟨rfl, rfl⟩
  | cons e rest ih =>
    cases e with
    | quit => exact ⟨rfl, rfl⟩
    | keydown k =>
      by_cases hk : k = GKey.kr
      · subst hk
        have : processEvents s (.keydown .kr :: rest) = ([], .restart, s) := by
          simp [processEvents]
        rw [this]
        exact ⟨rfl, rfl⟩
      · have hstep : processEvents s (.keydown k :: rest) =
            processEvents (pauseToggle k s) rest := by
          simp only [processEvents]
          rw [if_neg hk]
        rw [hstep]
        obtain ⟨i1, i2⟩ := ih (pauseToggle k s)
        have hpt : (pauseToggle k s).player = s.player ∧
            (pauseToggle k s).game_over = s.game_over := by
          simp only [pauseToggle]
          split <;> exact ⟨rfl, rfl⟩
        exact ⟨i1.trans hpt.1, i2.trans hpt.2⟩

/-- C2 (amended): "lives ≤ 0 implies game over" is an invariant of every
frame — each of the three damage sites re-checks lives and raises
`game_over` in the same frame it reaches (or passes) zero.  The original
claim's "lives never negative" is false: see the counterexample. -/
theorem C2_lives_gameover_amended (inp : FrameIn) (s : GState) (h : livesSafe s) :
    frameResultSafe (frameStep inp s) := by
  rcases hpe : processEvents s inp.events with ⟨w, o, s2⟩
  have hst := processEvents_state s inp.events
  rw [hpe] at hst
  have h2 : livesSafe s2 := by
    intro hl
    rw [hst.2]
    apply h
    rw [← hst.1]
    exact hl
  unfold frameStep
  rw [hpe]
  cases o with
  | exitGame => trivial
  | restart => trivial
  | next =>
    dsimp only
    split
    · exact frozenStep_LG inp.loadRnd s2 h2
    · exact simStep_LG inp s2 h2

/-- Witness for `C2_lives_gameover_amended` at a concrete state and
input. -/
theorem C2_lives_gameover_witness : frameResultSafe (frameStep
    { events := [], keyLeft := false, keyRight := false, keyDash := false,
      mousePressed := false, aimVel := (0, 0), enemyIn := fun _ => c4in,
      loadRnd := c7rnd } gs0) :=
  C2_lives_gameover_amended _ gs0 (by intro habs; exact absurd habs (by decide))

/-- C2 counterexample player: one life left, fallen far below the level
bottom. -/
def c2player : Player :=
  { Player.init 0 0 with rect := { x := 100, y := 2000, w := 34, h := 46 }, lives := 1 }

/-- C2 counterexample enemy: a patrol enemy camped on the respawn
point. -/
def c2enemy : Enemy :=
  { rect := Rect.ofMidbottom 36 40 100 100, etype := .patrol, speed := ⟨1, 1⟩,
    dir := 1, aggro := false, shoot_timer := 100, vel_y := 0 }

/-- C2 counterexample frame input: no events, no keys, no mouse. -/
def c2in : FrameIn :=
  { events := [], keyLeft := false, keyRight := false, keyDash := false,
    mousePressed := false, aimVel := (0, 0), enemyIn := fun _ => c4in, loadRnd := c7rnd }

/-- C2 counterexample state: playing, one life, enemy at the respawn
point. -/
def c2s : GState := { gs0 with player := c2player, enemies := [c2enemy],
                               respawn_point := (100, 100) }

/-- The lives counter of a frame outcome (0 when the session ended). -/
def livesOf : FrameResult → ℤ
  | .next t => t.player.lives
  | _ => 0

/-- The game-over flag of a frame outcome. -/
def gameOverOf : FrameResult → Bool
  | .next t => t.game_over
  | _ => true

/-- C2 counterexample: from a mid-game state with `lives = 1` and no
game over, a single frame drives `lives` to `-1`: the fall-death takes
the last life (raising `game_over`), but the same frame then also
applies enemy-contact damage at the respawn point.  The claimed
invariant "lives is always ≥ 0" is false; game over is still raised in
that frame. -/
theorem C2_lives_counterexample :
    c2s.player.lives = 1 ∧ c2s.game_over = false ∧
    livesOf (frameStep c2in c2s) = -1 ∧
    gameOverOf (frameStep c2in c2s) = true := by decide
